import Mathlib

/-!
Shallow embedding of the request router / translation engine of the
cloudflare-llm-proxy worker (source: the default-export worker module,
`src/unnamed/part_002`).  Pure functions of the source are translated into
Lean functions; the two nondeterministic inputs (the upstream network call
and the random message-id suffix) are passed as explicit parameters.
JavaScript strings are Lean `String`s; JS string operations are
re-implemented by structural recursion on the character list (exact on the
ASCII data these claims exercise).  JS `undefined` for an optional value is
`Option.none`; JS truthiness on strings is `· ≠ ""` and on numbers `· ≠ 0`.
-/

/-- ASCII approximation of the JavaScript `\s` character class / `trim()`
whitespace set (space, tab, LF, CR, VT, FF). -/
def isJsWhitespace (c : Char) : Bool :=
  c == ' ' || c == '\t' || c == '\n' || c == '\r' || c == Char.ofNat 11 || c == Char.ofNat 12

/-- JavaScript `String.prototype.trim()`: strip leading and trailing whitespace. -/
def jsTrim (s : String) : String :=
  ⟨((s.data.dropWhile isJsWhitespace).reverse.dropWhile isJsWhitespace).reverse⟩

/-- `startChars pre l` is true when `l` begins with `pre`. -/
def startChars : List Char → List Char → Bool
  | [], _ => true
  | _ :: _, [] => false
  | c :: cs, d :: ds => (c == d) && startChars cs ds

/-- JavaScript `s.startsWith(pre)`. -/
def jsStartsWith (s pre : String) : Bool :=
  startChars pre.data s.data

/-- `infixChars sub l` is true when `sub` occurs contiguously in `l`. -/
def infixChars (sub : List Char) : List Char → Bool
  | [] => startChars sub []
  | c :: cs => startChars sub (c :: cs) || infixChars sub cs

/-- JavaScript `s.includes(sub)`: substring containment. -/
def jsIncludes (s sub : String) : Bool :=
  infixChars sub.data s.data

/-- JavaScript `s.split(sep)` for a one-character separator: the groups of
characters between occurrences of `sep` (so `""` splits to `[""]`). -/
def splitChars (sep : Char) : List Char → List (List Char)
  | [] => [[]]
  | c :: cs =>
    match splitChars sep cs with
    | [] => [[]]
    | g :: gs => if c == sep then [] :: g :: gs else (c :: g) :: gs

def jsSplit (s : String) (sep : Char) : List String :=
  (splitChars sep s.data).map (fun l => String.mk l)

/-- `Array.prototype.join(sep)`. -/
def joinWith (sep : String) : List String → String
  | [] => ""
  | [x] => x
  | x :: y :: xs => x ++ sep ++ joinWith sep (y :: xs)

/-- `Array.prototype.join('')` over strings. -/
def concatAll : List String → String
  | [] => ""
  | s :: rest => s ++ concatAll rest

/-- JavaScript `s.toLowerCase()` (ASCII). -/
def strLower (s : String) : String :=
  ⟨s.data.map Char.toLower⟩

/-- The Fetch-API header map: a list of name/value pairs with
case-insensitive name lookup. -/
abbrev HeaderMap := List (String × String)

/-- `Headers.get(name)`: first entry whose name matches case-insensitively. -/
def hget (h : HeaderMap) (name : String) : Option String :=
  (h.find? (fun p => strLower p.1 == strLower name)).map (fun p => p.2)

/-- Remove every entry matching `name` case-insensitively (`Headers.delete`). -/
def hdelete (h : HeaderMap) (name : String) : HeaderMap :=
  h.filter (fun p => strLower p.1 != strLower name)

/-- `Headers.set(name, value)`: drop previous entries for `name`, add the new one. -/
def hset (h : HeaderMap) (name value : String) : HeaderMap :=
  hdelete h name ++ [(name, value)]

/-- `Headers.has(name)`. -/
def hhas (h : HeaderMap) (name : String) : Bool :=
  (hget h name).isSome

/-- The components of a WHATWG `URL` object that the worker reads or
writes: protocol (scheme, stored without the trailing colon), hostname,
port (`""` when the port is the scheme default, as in the `URL` API),
pathname and search (query string).  `new URL(request.url)` carries every
component of the inbound URL; the worker mutates only `hostname`,
`protocol`, `pathname` and (through the vertexai transform) `search`. -/
structure URLModel where
  protocol : String
  hostname : String
  port : String
  pathname : String
  search : String
deriving DecidableEq

/-- The regex test `/^Bearer\s+/.test(s)`: the literal `Bearer` followed by
at least one whitespace character. -/
def bearerMatch (s : String) : Bool :=
  jsStartsWith s "Bearer" &&
    (match s.data.drop 6 with
     | c :: _ => isJsWhitespace c
     | [] => false)

/-- `s.replace(/^Bearer\s+/, '')`: strips `Bearer` and all following
whitespace when the (greedy, anchored) pattern matches, else returns `s`
unchanged. -/
def stripBearer (s : String) : String :=
  if bearerMatch s then ⟨(s.data.drop 6).dropWhile isJsWhitespace⟩ else s

/-- Credential extraction shared by the dispatcher (source lines 102-105) and
the translator (lines 310-312):
`get('X-API-Key') || get('x-api-key') || get('Authorization')?.replace(BEARER_PREFIX, '')`.
`Headers.get` is case-insensitive, so the first two reads coincide and are
modelled as one; a falsy (empty) value at any stage falls through, and a
falsy final value is `none` (it triggers the 401 branch in both callers). -/
def extractAuthCredential (h : HeaderMap) : Option String :=
  match hget h "authorization" with
  | some a => if stripBearer a = "" then none else some (stripBearer a)
  | none => none

def extractCredential (h : HeaderMap) : Option String :=
  match hget h "x-api-key" with
  | some v => if v = "" then extractAuthCredential h else some v
  | none => extractAuthCredential h

/-- The worker `Env`: five comma-separated whitelist strings and an optional
upstream proxy origin.  An unset binding and the empty string are both
falsy in every guard of the source, so unset is modelled as `""`. -/
structure Env where
  ALLOWED_ANTHROPIC_KEYS : String
  ALLOWED_OPENAI_KEYS : String
  ALLOWED_GOOGLE_KEYS : String
  ALLOWED_GROQ_KEYS : String
  ALLOWED_OPENROUTER_KEYS : String
  PROXY_URL : Option String
deriving DecidableEq

/-- One arm of `getAllowedKeysForProvider`:
`s ? s.split(',').map(key => key.trim()).filter(key => key.length > 0) : []`. -/
def splitKeys (s : String) : List String :=
  if s = "" then []
  else ((jsSplit s ',').map jsTrim).filter (fun key => decide (0 < key.length))

/-- `getAllowedKeysForProvider` (lines 533-568); the memoization cache is
transparent (it only ever stores the recomputed value). -/
def getAllowedKeysForProvider (provider : String) (env : Env) : List String :=
  if provider = "anthropic" then splitKeys env.ALLOWED_ANTHROPIC_KEYS
  else if provider = "openai" then splitKeys env.ALLOWED_OPENAI_KEYS
  else if provider = "gemini" then splitKeys env.ALLOWED_GOOGLE_KEYS
  else if provider = "groq" then splitKeys env.ALLOWED_GROQ_KEYS
  else if provider = "vertexai" then splitKeys env.ALLOWED_GOOGLE_KEYS
  else if provider = "openrouter" then splitKeys env.ALLOWED_OPENROUTER_KEYS
  else []

/-- `mapClaudeModelToGemini` (lines 572-580).  `!model` is true for both
`undefined` and the empty string; the `startsWith('gemini-')` test runs on
the original string, the substring tests on its lowercased form. -/
def mapClaudeModelToGemini : Option String → String
  | none => "gemini-2.5-flash"
  | some model =>
    if model = "" then "gemini-2.5-flash"
    else if jsStartsWith model "gemini-" then model
    else
      if jsIncludes (strLower model) "haiku" then "gemini-2.5-flash"
      else if jsIncludes (strLower model) "sonnet" || jsIncludes (strLower model) "opus" then "gemini-2.5-pro"
      else "gemini-2.5-flash"

/-- `RELEVANT_HEADERS` (lines 29-38): the allow-list of pass-through headers. -/
def RELEVANT_HEADERS : List String :=
  ["content-type", "anthropic-version", "anthropic-beta", "openai-version",
   "openai-organization", "openai-beta", "user-agent", "x-goog-user-project"]

/-- `DEFAULT_MASK_HEADERS` (lines 40-78): headers stripped before forwarding
when a provider has no mask list of its own. -/
def DEFAULT_MASK_HEADERS : List String :=
  ["x-forwarded-for", "x-real-ip", "x-forwarded-proto", "x-forwarded-host",
   "cf-connecting-ip", "cf-ipcountry", "cf-ray", "cf-visitor",
   "x-forwarded-server", "x-forwarded-by", "via", "x-cluster-client-ip",
   "x-host", "x-original-forwarded-for", "x-original-remote-addr",
   "x-original-remote-host", "x-original-uri", "x-remote-addr",
   "x-remote-host", "x-remote-ip", "x-remote-port", "x-request-uri",
   "x-scheme", "x-server-name", "x-server-port", "x-server-protocol",
   "x-server-software", "x-ssl-client-cert", "x-ssl-client-dn",
   "x-ssl-client-verify", "x-ssl-cipher", "x-ssl-protocol",
   "x-ssl-session-id", "x-ssl-session-reused", "x-ssl-trusted-ca",
   "x-ssl-verify", "x-ssl-verify-result"]

/-- `ApiConfig` (lines 14-21).  The two optional transform functions are
present only on `vertexai`; the request transform is modelled by the flag
plus `vertexTransformPath` below, and the response transform is the
identity in the source and is not modelled. -/
structure ApiConfig where
  baseUrl : String
  apiKeyHeader : String
  defaultVersion : Option String
  hasTransformRequest : Bool
  maskHeaders : Option (List String)
deriving DecidableEq

/-- The per-provider mask list, identical for all six providers (lines 435-440 etc.). -/
def providerMask : List String :=
  ["x-forwarded-for", "x-real-ip", "cf-connecting-ip", "cf-ipcountry"]

/-- The six provider descriptors (lines 430-524). -/
def anthropicConfig : ApiConfig :=
  { baseUrl := "https://api.anthropic.com", apiKeyHeader := "x-api-key",
    defaultVersion := some "2023-06-01", hasTransformRequest := false,
    maskHeaders := some providerMask }

def openaiConfig : ApiConfig :=
  { baseUrl := "https://api.openai.com", apiKeyHeader := "Authorization",
    defaultVersion := some "2024-01-01", hasTransformRequest := false,
    maskHeaders := some providerMask }

def geminiConfig : ApiConfig :=
  { baseUrl := "https://generativelanguage.googleapis.com", apiKeyHeader := "x-goog-api-key",
    defaultVersion := some "2024-01-01", hasTransformRequest := false,
    maskHeaders := some providerMask }

def groqConfig : ApiConfig :=
  { baseUrl := "https://api.groq.com", apiKeyHeader := "Authorization",
    defaultVersion := some "2024-01-01", hasTransformRequest := false,
    maskHeaders := some providerMask }

def vertexaiConfig : ApiConfig :=
  { baseUrl := "https://us-central1-aiplatform.googleapis.com", apiKeyHeader := "Authorization",
    defaultVersion := some "2024-01-01", hasTransformRequest := true,
    maskHeaders := some providerMask }

def openrouterConfig : ApiConfig :=
  { baseUrl := "https://openrouter.ai", apiKeyHeader := "Authorization",
    defaultVersion := none, hasTransformRequest := false,
    maskHeaders := some providerMask }

/-- `getApiConfig` (lines 424-531); the config cache is transparent. -/
def getApiConfig (provider : String) : Option ApiConfig :=
  if provider = "anthropic" then some anthropicConfig
  else if provider = "openai" then some openaiConfig
  else if provider = "gemini" then some geminiConfig
  else if provider = "groq" then some groqConfig
  else if provider = "vertexai" then some vertexaiConfig
  else if provider = "openrouter" then some openrouterConfig
  else none

/-- Splits `scheme://host` at the first `://`, yielding (scheme, host).
`new URL(cfg.baseUrl)` applied to the six origin constants (which carry no
port, path or query) yields exactly these two components. -/
def splitScheme : List Char → Option (List Char × List Char)
  | [] => none
  | ':' :: '/' :: '/' :: rest => some ([], rest)
  | c :: rest =>
    match splitScheme rest with
    | some (a, b) => some (c :: a, b)
    | none => none

def parseOrigin (s : String) : String × String :=
  match splitScheme s.data with
  | some (p, h) => (String.mk p, String.mk h)
  | none => ("", s)

/-- `url.pathname.split('/').filter(Boolean)` (line 120). -/
def pathSegments (pathname : String) : List String :=
  (jsSplit pathname '/').filter (fun s => s != "")

/-- Target-URL construction (lines 163-176): replace only the hostname and
the protocol with those of the provider base origin (port, search and every
other component survive from the inbound URL), then remap the pathname from
the non-empty inbound segments. -/
def buildTargetUrl (inUrl : URLModel) (cfg : ApiConfig) (provider : String) (parts : List String) : URLModel :=
  { inUrl with
    protocol := (parseOrigin cfg.baseUrl).1,
    hostname := (parseOrigin cfg.baseUrl).2,
    pathname :=
      if provider = "openrouter" then "/api/v1/" ++ joinWith "/" (parts.drop 2)
      else "/" ++ joinWith "/" (parts.drop 1) }

/-- `arr[i] || dflt` over a string array: out-of-range and `""` both fall
back to the default. -/
def jsIndexOr (l : List String) (i : Nat) (dflt : String) : String :=
  match l[i]? with
  | some s => if s = "" then dflt else s
  | none => dflt

/-- The `vertexai` `transformRequest` (lines 479-500), acting on the
pathname of the already-rewritten target URL (the transform reads only
`url.pathname` and writes only `url.pathname`, passing `url.search`
through unchanged). -/
def vertexTransformPath (pathname : String) : String :=
  let pathParts := jsSplit pathname '/'
  let projectId := jsIndexOr pathParts 3 "123456789"
  let location := jsIndexOr pathParts 4 "us-central1"
  if jsIncludes pathname "/predict" then
    "/v1/projects/" ++ projectId ++ "/locations/" ++ location ++ "/publishers/google/models/gemini-pro:predict"
  else if jsIncludes pathname "/models" then
    "/v1/projects/" ++ projectId ++ "/locations/" ++ location ++ "/models"
  else if jsIncludes pathname "/chat/completions" then
    "/v1/projects/" ++ projectId ++ "/locations/" ++ location ++ "/publishers/google/models/gemini-pro:predict"
  else pathname

/-- One step of the relevant-header copy loop (lines 189-194): copy the
header when present with a truthy (non-empty) value. -/
def copyHeaderStep (src : HeaderMap) (acc : HeaderMap) (name : String) : HeaderMap :=
  match hget src name with
  | some v => if v = "" then acc else hset acc name v
  | none => acc

def copyRelevant (src acc : HeaderMap) : HeaderMap :=
  RELEVANT_HEADERS.foldl (copyHeaderStep src) acc

/-- `maskClientInfo` (lines 415-422). -/
def maskClientInfo (h : HeaderMap) (mask : Option (List String)) : HeaderMap :=
  (mask.getD DEFAULT_MASK_HEADERS).foldl hdelete h

/-- The credential header set first (lines 181-186): `Bearer`-formatted
when the provider authenticates via `Authorization`, raw otherwise. -/
def credHeader (cfg : ApiConfig) (clientApiKey : String) : HeaderMap :=
  if cfg.apiKeyHeader = "Authorization" then hset [] "Authorization" ("Bearer " ++ clientApiKey)
  else hset [] cfg.apiKeyHeader clientApiKey

/-- The default-version step (lines 196-203): only when the provider has a
default version and neither version header is present, and only the
`anthropic` and `openai` providers actually write a header. -/
def versionStep (cfg : ApiConfig) (provider : String) (h : HeaderMap) : HeaderMap :=
  match cfg.defaultVersion with
  | some dv =>
    if !(hhas h "anthropic-version") && !(hhas h "openai-version") then
      if provider = "anthropic" then hset h "anthropic-version" dv
      else if provider = "openai" then hset h "openai-version" dv
      else h
    else h
  | none => h

/-- The default user-agent step (lines 205-208). -/
def userAgentStep (h : HeaderMap) : HeaderMap :=
  if hhas h "user-agent" then h else hset h "user-agent" "Claude-Proxy/1.0"

/-- Header construction for a forwarded request (lines 179-211): credential
header, relevant-header copy, default version, default user-agent, mask. -/
def buildForwardHeaders (reqHeaders : HeaderMap) (cfg : ApiConfig) (provider clientApiKey : String) : HeaderMap :=
  maskClientInfo
    (userAgentStep (versionStep cfg provider (copyRelevant reqHeaders (credHeader cfg clientApiKey))))
    cfg.maskHeaders

/-- Opaque carrier for the upstream `usage` object, which the translator
forwards without inspecting it. -/
structure UsageData where
  payload : String
deriving DecidableEq

structure ContentBlock where
  type : String
  text : String
deriving DecidableEq

/-- The Claude-shaped reply object built by the translator (lines 367-374). -/
structure AnthropicResponse where
  id : String
  type : String
  role : String
  content : List ContentBlock
  model : String
  usage : Option UsageData
deriving DecidableEq

/-- A response body: empty (preflight), a proxy-generated `{error, message}`
JSON object, a translator reply, or an upstream body passed through
unread (the opaque tag distinguishes distinct upstream streams). -/
inductive RespBody where
  | empty
  | errorJson (error message : String)
  | claudeJson (r : AnthropicResponse)
  | passthrough (tag : String)
deriving DecidableEq

structure Response where
  status : Nat
  headers : HeaderMap
  body : RespBody
deriving DecidableEq

structure ClaudeMessage where
  role : String
  content : String
deriving DecidableEq

/-- The Anthropic-style request body parsed by the translator (line 336):
`{model?, messages: [{role, content}], max_tokens?}`. -/
structure ClaudeBody where
  model : Option String
  messages : List ClaudeMessage
  max_tokens : Option Int
deriving DecidableEq

structure GeminiPartOut where
  text : String
deriving DecidableEq

structure GeminiContentOut where
  role : String
  parts : List GeminiPartOut
deriving DecidableEq

structure GenerationConfig where
  maxOutputTokens : Int
deriving DecidableEq

/-- The Gemini request the translator serializes; a `none`
`generationConfig` is dropped entirely by `JSON.stringify`. -/
structure GeminiRequest where
  model : String
  contents : List GeminiContentOut
  generationConfig : Option GenerationConfig
deriving DecidableEq

/-- Request translation (lines 338-345).  `body.max_tokens ? {...} : undefined`
makes the zero value falsy, so `generationConfig` is omitted for it. -/
def geminiRequestOfBody (body : ClaudeBody) : GeminiRequest :=
  { model := mapClaudeModelToGemini body.model,
    contents := body.messages.map (fun msg =>
      { role := if msg.role = "user" then "user" else "model",
        parts := [{ text := msg.content }] }),
    generationConfig :=
      match body.max_tokens with
      | some t => if t = 0 then none else some { maxOutputTokens := t }
      | none => none }

structure GeminiPartIn where
  text : Option String
deriving DecidableEq

structure GeminiContentIn where
  parts : Option (List GeminiPartIn)
deriving DecidableEq

structure GeminiCandidate where
  content : Option GeminiContentIn
deriving DecidableEq

/-- The upstream Gemini JSON body as read by the translator: only
`candidates` and `usage` are touched. -/
structure GeminiData where
  candidates : Option (List GeminiCandidate)
  usage : Option UsageData
deriving DecidableEq

/-- The upstream Gemini response when the fetch-and-parse succeeded: its
HTTP status (never inspected by the translator) and its parsed JSON body. -/
structure GeminiUpstream where
  status : Nat
  data : GeminiData
deriving DecidableEq

/-- Response-text extraction (lines 365-366):
`geminiData.candidates?.[0]?.content` then
`candidate?.parts?.map(p => p.text).join('') || ''`.  `Array.join` renders
an `undefined` element as the empty string. -/
def geminiText (gd : GeminiData) : String :=
  match gd.candidates with
  | none => ""
  | some [] => ""
  | some (c :: _) =>
    match c.content with
    | none => ""
    | some ct =>
      match ct.parts with
      | none => ""
      | some ps => concatAll (ps.map (fun p => p.text.getD ""))

/-- The Claude-shaped reply (lines 367-374); `randSuffix` stands for
`Math.random().toString(36).slice(2)`. -/
def anthropicResponseOfGemini (gd : GeminiData) (geminiModel randSuffix : String) : AnthropicResponse :=
  { id := "msg_" ++ randSuffix,
    type := "message",
    role := "assistant",
    content := [{ type := "text", text := geminiText gd }],
    model := geminiModel,
    usage := gd.usage }

/-- The fixed CORS preflight response (lines 83-93). -/
def preflightResponse : Response :=
  { status := 200,
    headers :=
      [("Access-Control-Allow-Origin", "*"),
       ("Access-Control-Allow-Methods", "GET, POST, PUT, DELETE, OPTIONS"),
       ("Access-Control-Allow-Headers", "Content-Type, Authorization, X-API-Key, anthropic-version, openai-version, x-goog-api-key"),
       ("Access-Control-Max-Age", "86400")],
    body := .empty }

/-- Headers of every proxy-generated JSON (error or translator) response:
only `Content-Type` and the CORS origin wildcard. -/
def jsonCorsHeaders : HeaderMap :=
  [("Content-Type", "application/json"), ("Access-Control-Allow-Origin", "*")]

/-- 401 for a missing credential (lines 106-117). -/
def missingKeyResponse : Response :=
  { status := 401, headers := jsonCorsHeaders,
    body := .errorJson "API key is required"
      "Please provide an API key in the X-API-Key header or Authorization header" }

/-- 400 for fewer than two path segments (lines 121-132).  The source
message names example endpoints; quotation marks inside it are omitted. -/
def invalidEndpointResponse : Response :=
  { status := 400, headers := jsonCorsHeaders,
    body := .errorJson "Invalid API endpoint"
      "Please specify a valid API endpoint (e.g., /anthropic/v1/messages, /openai/v1/chat/completions)" }

/-- 400 for an unknown provider id (lines 135-146); quotation marks around
the provider id are omitted from the interpolated message. -/
def unsupportedProviderResponse (provider : String) : Response :=
  { status := 400, headers := jsonCorsHeaders,
    body := .errorJson "Unsupported API provider"
      ("API provider " ++ provider ++ " is not supported. Supported providers: anthropic, openai, gemini, groq, vertexai, openrouter") }

/-- 403 for a whitelisted provider rejecting the credential (lines 150-161). -/
def unauthorizedResponse : Response :=
  { status := 403, headers := jsonCorsHeaders,
    body := .errorJson "Unauthorized" "Invalid API key provided for this provider" }

/-- The catch-all 500 (lines 290-306) with the thrown error message; the
optional stack/url/method debug fields are not modelled. -/
def internalErrorResponse (msg : String) : Response :=
  { status := 500, headers := jsonCorsHeaders,
    body := .errorJson "Internal server error" msg }

/-- An inbound request: method, parsed URL, headers, and the outcome that
`await request.json()` would produce on its body (`Except.error` carries
the parse-failure message thrown for a malformed JSON body).  Request
bodies are otherwise streamed through untouched and are not modelled. -/
structure Request where
  method : String
  url : URLModel
  headers : HeaderMap
  jsonBody : Except String ClaudeBody

/-- The outbound call the dispatcher hands to the transport seam
(`fetchWithProxy`): final target URL, method, and constructed headers. -/
structure OutboundRequest where
  url : URLModel
  method : String
  headers : HeaderMap
deriving DecidableEq

/-- What the dispatcher decides for a non-OPTIONS, non-translation request:
either an immediate response (no outbound call is made), or an outbound
forwarded request to the named provider. -/
inductive RouteResult where
  | response (r : Response)
  | forward (out : OutboundRequest) (provider : String)
deriving DecidableEq

def RouteResult.forwardsTo : RouteResult → String → Bool
  | .forward _ p, q => p == q
  | .response _, _ => false

/-- The dispatcher body between credential extraction and the outbound call
(lines 102-237 plus the transform step 240-266). -/
def dispatch (req : Request) (env : Env) : RouteResult :=
  match extractCredential req.headers with
  | none => .response missingKeyResponse
  | some clientApiKey =>
    let urlPathParts := pathSegments req.url.pathname
    if urlPathParts.length < 2 then .response invalidEndpointResponse
    else
      let apiProvider := urlPathParts.headD ""
      match getApiConfig apiProvider with
      | none => .response (unsupportedProviderResponse apiProvider)
      | some apiConfig =>
        let allowedKeys := getAllowedKeysForProvider apiProvider env
        if allowedKeys.length > 0 && !(allowedKeys.contains clientApiKey) then
          .response unauthorizedResponse
        else
          let target := buildTargetUrl req.url apiConfig apiProvider urlPathParts
          let fwdHeaders := buildForwardHeaders req.headers apiConfig apiProvider clientApiKey
          let target :=
            if apiConfig.hasTransformRequest then
              { target with pathname := vertexTransformPath target.pathname }
            else target
          .forward { url := target, method := req.method, headers := fwdHeaders } apiProvider

/-- Response assembly for the generic forward path (lines 271-288): status
and body come from the upstream response; its headers are kept and the
three CORS headers are overwritten onto them.  The only response transform
(vertexai) is the identity and is not modelled. -/
def assembleForwardResponse (upstream : Response) : Response :=
  { status := upstream.status,
    headers :=
      hset (hset (hset upstream.headers
        "Access-Control-Allow-Origin" "*")
        "Access-Control-Allow-Methods" "GET, POST, PUT, DELETE, OPTIONS")
        "Access-Control-Allow-Headers" "Content-Type, Authorization, X-API-Key, anthropic-version, openai-version, x-goog-api-key",
    body := upstream.body }

/-- `handleClaudeGeminiTranslation` (lines 309-380).  `upstream` is the
combined outcome of the POST to
`generativelanguage.googleapis.com/v1beta/models/{model}:generateContent`
and of parsing its body as JSON: `Except.error` is a throw from either
step, which propagates to the dispatcher catch-all.  The body it posts is
`geminiRequestOfBody` of the parsed inbound body. -/
def handleClaudeGeminiTranslation (req : Request) (env : Env)
    (upstream : Except String GeminiUpstream) (randSuffix : String) : Except String Response :=
  match extractCredential req.headers with
  | none =>
    .ok { status := 401, headers := jsonCorsHeaders,
          body := .errorJson "API key is required"
            "Please provide a Gemini API key in the X-API-Key header or Authorization header" }
  | some geminiApiKey =>
    let allowedKeys := getAllowedKeysForProvider "gemini" env
    if allowedKeys.length > 0 && !(allowedKeys.contains geminiApiKey) then
      .ok { status := 403, headers := jsonCorsHeaders,
            body := .errorJson "Unauthorized" "Invalid Gemini API key provided" }
    else
      match req.jsonBody with
      | .error e => .error e
      | .ok body =>
        let geminiModel := mapClaudeModelToGemini body.model
        match upstream with
        | .error e => .error e
        | .ok up =>
          .ok { status := 200, headers := jsonCorsHeaders,
                body := .claudeJson (anthropicResponseOfGemini up.data geminiModel randSuffix) }

/-- The worker entry point `fetch` (lines 81-307): preflight short-circuit,
translation short-circuit, dispatch, forwarding, catch-all.
`upstreamResp` is the outcome of the generic outbound call (`Except.error`
is a network throw), `geminiUpstream` and `randSuffix` feed the translator. -/
def fetchModel (req : Request) (env : Env) (upstreamResp : Except String Response)
    (geminiUpstream : Except String GeminiUpstream) (randSuffix : String) : Response :=
  if req.method = "OPTIONS" then preflightResponse
  else if jsStartsWith req.url.pathname "/claude-gemini/v1/messages" then
    match handleClaudeGeminiTranslation req env geminiUpstream randSuffix with
    | .ok r => r
    | .error msg => internalErrorResponse msg
  else
    match dispatch req env with
    | .response r => r
    | .forward _out _provider =>
      match upstreamResp with
      | .ok upstream => assembleForwardResponse upstream
      | .error msg => internalErrorResponse msg

/-! ### Claim-side definitions and concrete test fixtures -/

/-- The model mapping exactly as claim C3 words it: every test, the
`gemini-` prefix test included, is a case-insensitive match. -/
def mapModelClaimC3 : Option String → String
  | none => "gemini-2.5-flash"
  | some model =>
    if jsStartsWith (strLower model) "gemini-" then model
    else if jsIncludes (strLower model) "haiku" then "gemini-2.5-flash"
    else if jsIncludes (strLower model) "sonnet" || jsIncludes (strLower model) "opus" then "gemini-2.5-pro"
    else "gemini-2.5-flash"

/-- The Gemini request exactly as claim C4 words it: `generationConfig`
carries `maxOutputTokens` whenever `max_tokens` is *present* in the body. -/
def geminiRequestClaimC4 (body : ClaudeBody) : GeminiRequest :=
  { model := mapClaudeModelToGemini body.model,
    contents := body.messages.map (fun msg =>
      { role := if msg.role = "user" then "user" else "model",
        parts := [{ text := msg.content }] }),
    generationConfig := body.max_tokens.map (fun t => { maxOutputTokens := t }) }

/-- A message translated as claim C4 words it: role `user` stays `user`,
every other role becomes `model`, and the string content becomes exactly
one `{text: content}` part. -/
def translateMessageClaim (msg : ClaudeMessage) : GeminiContentOut :=
  { role := if msg.role = "user" then "user" else "model",
    parts := [{ text := msg.content }] }

/-- The Gemini request as claim C4 amended: roles and single-text parts as
claimed, and `generationConfig` is present with `maxOutputTokens` exactly
when `max_tokens` is present *and non-zero* (JS truthiness); otherwise the
field is omitted entirely. -/
def geminiRequestAmendedC4 (body : ClaudeBody) : GeminiRequest :=
  { model := mapClaudeModelToGemini body.model,
    contents := body.messages.map translateMessageClaim,
    generationConfig :=
      (Option.filter (fun t => t != 0) body.max_tokens).map
        (fun t => { maxOutputTokens := t }) }

/-- The all-empty whitelist environment (allow-all for every provider). -/
def emptyEnv : Env :=
  { ALLOWED_ANTHROPIC_KEYS := "", ALLOWED_OPENAI_KEYS := "", ALLOWED_GOOGLE_KEYS := "",
    ALLOWED_GROQ_KEYS := "", ALLOWED_OPENROUTER_KEYS := "", PROXY_URL := none }

def c5Body : ClaudeBody :=
  { model := some "claude-3-sonnet-20240229",
    messages := [{ role := "user", content := "Hello, Gemini!" }],
    max_tokens := some 100 }

def c5Req : Request :=
  { method := "POST",
    url := { protocol := "https", hostname := "proxy.example.com", port := "",
             pathname := "/claude-gemini/v1/messages", search := "" },
    headers := [("X-API-Key", "gk")],
    jsonBody := Except.ok c5Body }

def c5Gd : GeminiData :=
  { candidates :=
      some [{ content := some { parts := some [{ text := some "Hi" }, { text := some " there" }] } }],
    usage := some { payload := "usage-object" } }

def c10Req : Request :=
  { method := "POST",
    url := { protocol := "https", hostname := "proxy.example.com", port := "",
             pathname := "/claude-gemini/v1/messages", search := "" },
    headers := [("Authorization", "Bearer gk")],
    jsonBody := Except.error "Unexpected token o in JSON at position 1" }

def c1Env : Env :=
  { ALLOWED_ANTHROPIC_KEYS := "k1, k2", ALLOWED_OPENAI_KEYS := "", ALLOWED_GOOGLE_KEYS := "",
    ALLOWED_GROQ_KEYS := "", ALLOWED_OPENROUTER_KEYS := "", PROXY_URL := none }

def c1ReqBad : Request :=
  { method := "POST",
    url := { protocol := "https", hostname := "proxy.example.com", port := "",
             pathname := "/anthropic/v1/messages", search := "" },
    headers := [("X-API-Key", "bad")],
    jsonBody := Except.error "no body" }

def c1ReqOk : Request :=
  { method := "GET",
    url := { protocol := "https", hostname := "proxy.example.com", port := "",
             pathname := "/gemini/v1beta/models", search := "" },
    headers := [("X-API-Key", "any-key-at-all")],
    jsonBody := Except.error "no body" }

def c2Req : Request :=
  { method := "POST",
    url := { protocol := "https", hostname := "proxy.example.com", port := "8080",
             pathname := "/vertexai/v1/chat/completions", search := "" },
    headers := [("X-API-Key", "k")],
    jsonBody := Except.error "no body" }

def c2Out : OutboundRequest :=
  { url := { protocol := "https", hostname := "us-central1-aiplatform.googleapis.com", port := "8080",
             pathname := "/v1/projects/completions/locations/us-central1/publishers/google/models/gemini-pro:predict",
             search := "" },
    method := "POST",
    headers := [("Authorization", "Bearer k"), ("user-agent", "Claude-Proxy/1.0")] }

def c7NoKeyReq : Request :=
  { method := "POST",
    url := { protocol := "https", hostname := "proxy.example.com", port := "",
             pathname := "/anthropic/v1/messages", search := "" },
    headers := [("Content-Type", "application/json")],
    jsonBody := Except.error "no body" }

def c7FwdReq : Request :=
  { method := "POST",
    url := { protocol := "https", hostname := "proxy.example.com", port := "",
             pathname := "/anthropic/v1/messages", search := "" },
    headers := [("X-API-Key", "k")],
    jsonBody := Except.error "no body" }

def c7FwdOut : OutboundRequest :=
  { url := { protocol := "https", hostname := "api.anthropic.com", port := "",
             pathname := "/v1/messages", search := "" },
    method := "POST",
    headers := [("x-api-key", "k"), ("anthropic-version", "2023-06-01"),
                ("user-agent", "Claude-Proxy/1.0")] }

def c7Upstream : Response :=
  { status := 200, headers := [("CF-Cache-Status", "HIT")], body := RespBody.passthrough "stream" }

def c7OptionsReq : Request :=
  { method := "OPTIONS",
    url := { protocol := "https", hostname := "proxy.example.com", port := "",
             pathname := "/anything", search := "" },
    headers := [],
    jsonBody := Except.error "no body" }

/-- A header is carried (in the JS-truthiness sense every use site applies)
when it is present with a non-empty value. -/
def hcarries (h : HeaderMap) (n : String) : Bool :=
  match hget h n with
  | some v => v != ""
  | none => false

def c9Req : Request :=
  { method := "POST",
    url := { protocol := "https", hostname := "proxy.example.com", port := "",
             pathname := "/gemini/v1beta/models/gemini-2.5-flash:generateContent", search := "" },
    headers := [("Authorization", "sk-raw-token")],
    jsonBody := Except.error "no body" }

def c9Out : OutboundRequest :=
  { url := { protocol := "https", hostname := "generativelanguage.googleapis.com", port := "",
             pathname := "/v1beta/models/gemini-2.5-flash:generateContent", search := "" },
    method := "POST",
    headers := [("x-goog-api-key", "sk-raw-token"), ("user-agent", "Claude-Proxy/1.0")] }

def c9WlEnv : Env :=
  { ALLOWED_ANTHROPIC_KEYS := "", ALLOWED_OPENAI_KEYS := "", ALLOWED_GOOGLE_KEYS := "gk1,gk2",
    ALLOWED_GROQ_KEYS := "", ALLOWED_OPENROUTER_KEYS := "", PROXY_URL := none }

/-! ### Header-map lemmas -/

theorem hget_congr_name (h : HeaderMap) {n n' : String} (e : strLower n = strLower n') :
    hget h n = hget h n' := by
  unfold hget
  rw [e]

theorem find?_hdelete_self (h : HeaderMap) (n : String) :
    List.find? (fun p => strLower p.1 == strLower n) (hdelete h n) = none := by
  induction h with
  | nil => rfl
  | cons p t ih =>
    by_cases hp : strLower p.1 = strLower n
    · have h1 : hdelete (p :: t) n = hdelete t n := by
        unfold hdelete
        rw [List.filter_cons_of_neg (by simp [hp])]
      rw [h1]
      exact ih
    · have h1 : hdelete (p :: t) n = p :: hdelete t n := by
        unfold hdelete
        rw [List.filter_cons_of_pos (by simp [hp])]
      rw [h1]
      have h2 : (strLower p.1 == strLower n) = false := beq_eq_false_iff_ne.mpr hp
      simp [List.find?, h2, ih]

theorem find?_hdelete_ne (h : HeaderMap) (n n' : String) (hne : strLower n ≠ strLower n') :
    List.find? (fun p => strLower p.1 == strLower n') (hdelete h n) =
      List.find? (fun p => strLower p.1 == strLower n') h := by
  induction h with
  | nil => rfl
  | cons p t ih =>
    by_cases hp : strLower p.1 = strLower n
    · have h1 : hdelete (p :: t) n = hdelete t n := by
        unfold hdelete
        rw [List.filter_cons_of_neg (by simp [hp])]
      have h2 : (strLower p.1 == strLower n') = false := by
        refine beq_eq_false_iff_ne.mpr ?_
        rw [hp]
        exact hne
      rw [h1, ih]
      simp [List.find?, h2]
    · have h1 : hdelete (p :: t) n = p :: hdelete t n := by
        unfold hdelete
        rw [List.filter_cons_of_pos (by simp [hp])]
      rw [h1]
      by_cases hq : strLower p.1 = strLower n'
      · have h2 : (strLower p.1 == strLower n') = true := beq_iff_eq.mpr hq
        simp [List.find?, h2]
      · have h2 : (strLower p.1 == strLower n') = false := beq_eq_false_iff_ne.mpr hq
        simp [List.find?, h2, ih]

theorem hget_hdelete_self (h : HeaderMap) (n : String) : hget (hdelete h n) n = none := by
  unfold hget
  rw [find?_hdelete_self]
  rfl

theorem hget_hdelete_ne (h : HeaderMap) (n n' : String) (hne : strLower n ≠ strLower n') :
    hget (hdelete h n) n' = hget h n' := by
  unfold hget
  rw [find?_hdelete_ne h n n' hne]

theorem hget_hset_self (h : HeaderMap) (n v : String) : hget (hset h n v) n = some v := by
  unfold hset hget
  rw [List.find?_append, find?_hdelete_self]
  simp [List.find?]

theorem hget_hset_ne (h : HeaderMap) (n v n' : String) (hne : strLower n ≠ strLower n') :
    hget (hset h n v) n' = hget h n' := by
  unfold hset hget
  rw [List.find?_append, find?_hdelete_ne h n n' hne]
  have h2 : (strLower n == strLower n') = false := beq_eq_false_iff_ne.mpr hne
  have h3 : List.find? (fun p => strLower p.1 == strLower n') [(n, v)] = none := by
    simp [List.find?, h2]
  rw [h3]
  cases List.find? (fun p => strLower p.1 == strLower n') h <;> simp

/-! ### Claim C3: model mapping -/

/-- Claim C3 states that the whole mapping is case-insensitive, in
particular that a model "already starting with gemini-" passes through
as-is.  The source checks the `gemini-` prefix case-sensitively (the
`toLowerCase` happens after it), so `"Gemini-pro"` does not pass through:
the code maps it to `"gemini-2.5-flash"`, while the claim requires
`"Gemini-pro"`.  This refutes the claim as stated. -/

theorem mapClaudeModelToGemini_C3_counterexample :
    mapClaudeModelToGemini (some "Gemini-pro") = "gemini-2.5-flash" ∧
    mapModelClaimC3 (some "Gemini-pro") = "Gemini-pro" ∧
    mapClaudeModelToGemini (some "Gemini-pro") ≠ mapModelClaimC3 (some "Gemini-pro") := by
  refine ⟨by decide, by decide, by decide⟩

/-- Claim C3 as amended: the mapping applies, in priority order — undefined
model to `gemini-2.5-flash`; a model starting with `gemini-`
**case-sensitively** passes through as-is; a model containing `haiku`
case-insensitively to `gemini-2.5-flash`; one containing `sonnet` or
`opus` case-insensitively to `gemini-2.5-pro`; everything else to
`gemini-2.5-flash`. -/

theorem mapClaudeModelToGemini_C3_amended (m : String) :
    mapClaudeModelToGemini none = "gemini-2.5-flash" ∧
    (jsStartsWith m "gemini-" = true → mapClaudeModelToGemini (some m) = m) ∧
    (jsStartsWith m "gemini-" = false → jsIncludes (strLower m) "haiku" = true →
      mapClaudeModelToGemini (some m) = "gemini-2.5-flash") ∧
    (jsStartsWith m "gemini-" = false → jsIncludes (strLower m) "haiku" = false →
      (jsIncludes (strLower m) "sonnet" = true ∨ jsIncludes (strLower m) "opus" = true) →
      mapClaudeModelToGemini (some m) = "gemini-2.5-pro") ∧
    (jsStartsWith m "gemini-" = false → jsIncludes (strLower m) "haiku" = false →
      jsIncludes (strLower m) "sonnet" = false → jsIncludes (strLower m) "opus" = false →
      mapClaudeModelToGemini (some m) = "gemini-2.5-flash") := by
  refine ⟨rfl, ?_, ?_, ?_, ?_⟩
  · intro h1
    have hne : m ≠ "" := by
      intro he
      subst he
      exact absurd h1 (by decide)
    simp [mapClaudeModelToGemini, hne, h1]
  · intro h1 h2
    by_cases hne : m = ""
    · subst hne; rfl
    · simp [mapClaudeModelToGemini, hne, h1, h2]
  · intro h1 h2 h3
    have hne : m ≠ "" := by
      intro he
      subst he
      rcases h3 with h3 | h3 <;> exact absurd h3 (by decide)
    rcases h3 with h3 | h3 <;> simp [mapClaudeModelToGemini, hne, h1, h2, h3]
  · intro h1 h2 h3 h4
    by_cases hne : m = ""
    · subst hne; rfl
    · simp [mapClaudeModelToGemini, hne, h1, h2, h3, h4]

/-- Witness for the amended C3 theorem at concrete models. -/

theorem mapClaudeModelToGemini_C3_amended_witness :
    mapClaudeModelToGemini (some "claude-3-OPUS-latest") = "gemini-2.5-pro" ∧
    mapClaudeModelToGemini (some "gemini-1.5-flash") = "gemini-1.5-flash" ∧
    mapClaudeModelToGemini (some "Claude-3-Haiku") = "gemini-2.5-flash" ∧
    mapClaudeModelToGemini (some "gpt-4o") = "gemini-2.5-flash" := by
  refine ⟨?_, ?_, ?_, ?_⟩
  · exact (mapClaudeModelToGemini_C3_amended "claude-3-OPUS-latest").2.2.2.1
      (by decide) (by decide) (Or.inr (by decide))
  · exact (mapClaudeModelToGemini_C3_amended "gemini-1.5-flash").2.1 (by decide)
  · exact (mapClaudeModelToGemini_C3_amended "Claude-3-Haiku").2.2.1 (by decide) (by decide)
  · exact (mapClaudeModelToGemini_C3_amended "gpt-4o").2.2.2.2
      (by decide) (by decide) (by decide) (by decide)

/-! ### Claim C4: request translation -/

/-- Claim C4 says `generationConfig.maxOutputTokens` is set whenever
`max_tokens` is present.  The source guards with JS truthiness
(`body.max_tokens ? {...} : undefined`), so the present value `0` produces
no `generationConfig` at all, refuting the claim at the body
`{model: "claude-3-sonnet-20240229", messages: [{role: "user", content: "hi"}], max_tokens: 0}`. -/

theorem geminiRequestOfBody_C4_counterexample :
    ({ model := some "claude-3-sonnet-20240229",
       messages := [{ role := "user", content := "hi" }],
       max_tokens := some 0 } : ClaudeBody).max_tokens = some 0 ∧
    (geminiRequestOfBody
      { model := some "claude-3-sonnet-20240229",
        messages := [{ role := "user", content := "hi" }],
        max_tokens := some 0 }).generationConfig = none ∧
    (geminiRequestClaimC4
      { model := some "claude-3-sonnet-20240229",
        messages := [{ role := "user", content := "hi" }],
        max_tokens := some 0 }).generationConfig = some { maxOutputTokens := 0 } ∧
    geminiRequestOfBody
      { model := some "claude-3-sonnet-20240229",
        messages := [{ role := "user", content := "hi" }],
        max_tokens := some 0 } ≠
      geminiRequestClaimC4
        { model := some "claude-3-sonnet-20240229",
          messages := [{ role := "user", content := "hi" }],
          max_tokens := some 0 } := by
  refine ⟨rfl, by decide, by decide, by decide⟩

/-- Claim C4 as amended: for every parsed Claude-shaped body, the built
Gemini request keeps role `user` for `user` messages and turns every other
role into `model`; each message content becomes a single `{text: content}`
part; and `generationConfig` is `{maxOutputTokens: max_tokens}` when
`max_tokens` is present and non-zero, and is omitted entirely otherwise
(in particular for the present value `0`). -/

theorem geminiRequestOfBody_C4_amended (body : ClaudeBody) :
    geminiRequestOfBody body = geminiRequestAmendedC4 body := by
  unfold geminiRequestOfBody geminiRequestAmendedC4 translateMessageClaim
  cases hmt : body.max_tokens with
  | none => simp
  | some t =>
    by_cases ht : t = 0
    · simp [Option.filter, ht]
    · simp [Option.filter, ht]

/-! ### Claims C5 and C10: the translator's reply and its parse-failure path -/

theorem whitelistCheck_pass {l : List String} {k : String}
    (h : l = [] ∨ l.contains k = true) :
    (l.length > 0 && !(l.contains k)) = false := by
  rcases h with h | h
  · subst h
    rfl
  · rw [h]
    simp

/-- Claim C5: when the translation endpoint is hit with a credential that
passes the (gemini) whitelist, the body parses, and the upstream call does
not throw, the reply is HTTP 200 — whatever the upstream HTTP status `st`
was — and its body is the Claude-shaped object with `id = "msg_" ++ suffix`,
`type = "message"`, `role = "assistant"`, `model` the mapped model, `usage`
forwarded verbatim, and `content[0].text` the concatenation of the text
fields of `candidates[0].content.parts` (empty when candidates or parts
are missing). -/

theorem translator_reply_C5 (req : Request) (env : Env) (upstreamResp : Except String Response)
    (key randSuffix : String) (b : ClaudeBody) (st : Nat) (gd : GeminiData)
    (hm : req.method ≠ "OPTIONS")
    (ht : jsStartsWith req.url.pathname "/claude-gemini/v1/messages" = true)
    (hcred : extractCredential req.headers = some key)
    (hwl : getAllowedKeysForProvider "gemini" env = [] ∨
      (getAllowedKeysForProvider "gemini" env).contains key = true)
    (hbody : req.jsonBody = Except.ok b) :
    fetchModel req env upstreamResp (Except.ok { status := st, data := gd }) randSuffix =
      { status := 200, headers := jsonCorsHeaders,
        body := RespBody.claudeJson
          (anthropicResponseOfGemini gd (mapClaudeModelToGemini b.model) randSuffix) } ∧
    (anthropicResponseOfGemini gd (mapClaudeModelToGemini b.model) randSuffix).id =
      "msg_" ++ randSuffix ∧
    (anthropicResponseOfGemini gd (mapClaudeModelToGemini b.model) randSuffix).type = "message" ∧
    (anthropicResponseOfGemini gd (mapClaudeModelToGemini b.model) randSuffix).role = "assistant" ∧
    (anthropicResponseOfGemini gd (mapClaudeModelToGemini b.model) randSuffix).model =
      mapClaudeModelToGemini b.model ∧
    (anthropicResponseOfGemini gd (mapClaudeModelToGemini b.model) randSuffix).usage = gd.usage ∧
    (anthropicResponseOfGemini gd (mapClaudeModelToGemini b.model) randSuffix).content =
      [{ type := "text", text := geminiText gd }] ∧
    (gd.candidates = none → geminiText gd = "") ∧
    (gd.candidates = some [] → geminiText gd = "") ∧
    (∀ c cs, gd.candidates = some (c :: cs) → c.content = none → geminiText gd = "") ∧
    (∀ c cs, gd.candidates = some (c :: cs) → c.content = some { parts := none } →
      geminiText gd = "") ∧
    (∀ c cs ps, gd.candidates = some (c :: cs) → c.content = some { parts := some ps } →
      geminiText gd = concatAll (ps.map (fun p => p.text.getD ""))) := by
  have hwl' : ((getAllowedKeysForProvider "gemini" env).length > 0 &&
      !((getAllowedKeysForProvider "gemini" env).contains key)) = false := whitelistCheck_pass hwl
  refine ⟨?_, rfl, rfl, rfl, rfl, rfl, rfl, ?_, ?_, ?_, ?_, ?_⟩
  · simp only [fetchModel, handleClaudeGeminiTranslation, hcred, hbody, hwl',
      if_neg hm, if_pos ht, Bool.false_eq_true, if_false]
  · intro h1
    simp [geminiText, h1]
  · intro h1
    simp [geminiText, h1]
  · intro c cs h1 h2
    simp [geminiText, h1, h2]
  · intro c cs h1 h2
    simp [geminiText, h1, h2]
  · intro c cs ps h1 h2
    simp [geminiText, h1, h2]

/-- Witness for C5 at a concrete translation request; the upstream status
503 shows the reply status is 200 regardless of the upstream status. -/

theorem translator_reply_C5_witness :
    fetchModel c5Req emptyEnv (Except.error "unused")
      (Except.ok { status := 503, data := c5Gd }) "abc123" =
      { status := 200, headers := jsonCorsHeaders,
        body := RespBody.claudeJson
          (anthropicResponseOfGemini c5Gd
            (mapClaudeModelToGemini (some "claude-3-sonnet-20240229")) "abc123") } ∧
    geminiText c5Gd = "Hi there" ∧
    mapClaudeModelToGemini (some "claude-3-sonnet-20240229") = "gemini-2.5-pro" := by
  refine ⟨?_, by decide, by decide⟩
  exact (translator_reply_C5 c5Req emptyEnv (Except.error "unused") "gk" "abc123" c5Body 503 c5Gd
    (by decide) (by decide) (by decide) (Or.inl (by decide)) rfl).1

/-- Claim C10: a request to the translation endpoint that passes
credential extraction and the whitelist but whose body is not valid JSON
makes `request.json()` throw; the dispatcher catch-all turns that into a
500 `Internal server error` response carrying the parse error message —
not a 400 client-input error. -/

theorem translator_bad_json_C10 (req : Request) (env : Env)
    (upstreamResp : Except String Response) (geminiUpstream : Except String GeminiUpstream)
    (key randSuffix msg : String)
    (hm : req.method ≠ "OPTIONS")
    (ht : jsStartsWith req.url.pathname "/claude-gemini/v1/messages" = true)
    (hcred : extractCredential req.headers = some key)
    (hwl : getAllowedKeysForProvider "gemini" env = [] ∨
      (getAllowedKeysForProvider "gemini" env).contains key = true)
    (hbody : req.jsonBody = Except.error msg) :
    fetchModel req env upstreamResp geminiUpstream randSuffix = internalErrorResponse msg ∧
    (internalErrorResponse msg).status = 500 ∧
    (internalErrorResponse msg).body = RespBody.errorJson "Internal server error" msg := by
  have hwl' : ((getAllowedKeysForProvider "gemini" env).length > 0 &&
      !((getAllowedKeysForProvider "gemini" env).contains key)) = false := whitelistCheck_pass hwl
  refine ⟨?_, rfl, rfl⟩
  simp only [fetchModel, handleClaudeGeminiTranslation, hcred, hbody, hwl',
    if_neg hm, if_pos ht, Bool.false_eq_true, if_false]

/-- Witness for C10 at a concrete malformed-body request. -/

theorem translator_bad_json_C10_witness :
    fetchModel c10Req emptyEnv (Except.error "unused") (Except.error "unused") "r" =
      internalErrorResponse "Unexpected token o in JSON at position 1" := by
  exact (translator_bad_json_C10 c10Req emptyEnv (Except.error "unused") (Except.error "unused")
    "gk" "r" "Unexpected token o in JSON at position 1"
    (by decide) (by decide) (by decide) (Or.inl (by decide)) rfl).1

/-! ### Claim C6: missing credential gives 401; X-API-Key has priority -/

/-- Claim C6: outside the translation endpoint, a non-OPTIONS request that
carries neither an `X-API-Key` nor an `Authorization` header is answered
401 with error `API key is required` and a message field — for *every*
path and provider, i.e. before any path parsing or provider resolution
could produce a different error.  When both headers are carried, a
non-empty `X-API-Key` value is the credential, whatever `Authorization`
holds (an empty header value conveys no credential — it is falsy at every
use site — so carrying a header means carrying a non-empty value). -/

theorem missing_credential_C6 (req : Request) (env : Env)
    (upstreamResp : Except String Response) (geminiUpstream : Except String GeminiUpstream)
    (randSuffix : String)
    (hm : req.method ≠ "OPTIONS")
    (ht : jsStartsWith req.url.pathname "/claude-gemini/v1/messages" = false)
    (hx : hget req.headers "X-API-Key" = none)
    (ha : hget req.headers "Authorization" = none) :
    fetchModel req env upstreamResp geminiUpstream randSuffix = missingKeyResponse ∧
    missingKeyResponse.status = 401 ∧
    missingKeyResponse.body = RespBody.errorJson "API key is required"
      "Please provide an API key in the X-API-Key header or Authorization header" ∧
    (∀ (h : HeaderMap) (v : String), hget h "X-API-Key" = some v → v ≠ "" →
      extractCredential h = some v) := by
  have hx' : hget req.headers "x-api-key" = none :=
    (hget_congr_name req.headers (show strLower "X-API-Key" = strLower "x-api-key" by decide)).symm.trans hx
  have ha' : hget req.headers "authorization" = none :=
    (hget_congr_name req.headers (show strLower "Authorization" = strLower "authorization" by decide)).symm.trans ha
  have hcred : extractCredential req.headers = none := by
    simp only [extractCredential, extractAuthCredential, hx', ha']
  refine ⟨?_, rfl, rfl, ?_⟩
  · simp only [fetchModel, dispatch, hcred, if_neg hm, ht, Bool.false_eq_true, if_false]
  · intro h v hv hne
    have hv' : hget h "x-api-key" = some v :=
      (hget_congr_name h (show strLower "X-API-Key" = strLower "x-api-key" by decide)).symm.trans hv
    simp only [extractCredential, hv', if_neg hne]

/-- Witness for C6: a concrete credential-less request gets the 401, and a
request carrying both headers uses the X-API-Key value. -/

theorem missing_credential_C6_witness :
    fetchModel
      { method := "GET",
        url := { protocol := "https", hostname := "proxy.example.com", port := "",
                 pathname := "/anthropic/v1/models", search := "" },
        headers := [("Content-Type", "application/json")],
        jsonBody := Except.error "no body" }
      emptyEnv (Except.error "unused") (Except.error "unused") "r" = missingKeyResponse ∧
    extractCredential [("Authorization", "Bearer other"), ("X-API-Key", "xkey")] = some "xkey" := by
  constructor
  · exact (missing_credential_C6 _ emptyEnv (Except.error "unused") (Except.error "unused") "r"
      (by decide) (by decide) (by decide) (by decide)).1
  · exact (missing_credential_C6
      { method := "GET",
        url := { protocol := "https", hostname := "proxy.example.com", port := "",
                 pathname := "/anthropic/v1/models", search := "" },
        headers := [("Content-Type", "application/json")],
        jsonBody := Except.error "no body" }
      emptyEnv (Except.error "unused") (Except.error "unused") "r"
      (by decide) (by decide) (by decide) (by decide)).2.2.2
      [("Authorization", "Bearer other"), ("X-API-Key", "xkey")] "xkey" (by decide) (by decide)

/-! ### Claim C1: per-provider whitelist gate -/

theorem strLength_pos_iff (k : String) : 0 < k.length ↔ k ≠ "" := by
  cases k with
  | mk l =>
    cases l with
    | nil => simp
    | cons c cs =>
      constructor
      · intro _ he
        exact absurd (congrArg String.data he) (by simp)
      · intro _
        show 0 < (c :: cs).length
        simp

/-- Claim C1: for a non-OPTIONS request to a supported provider carrying a
credential, a non-empty resolved whitelist not containing the credential
yields the 403 `Unauthorized` response with no outbound call (the route
result is `response`, not `forward`); an empty resolved whitelist accepts
any credential and the request is forwarded.  The whitelist is resolved by
splitting on commas, trimming, and discarding empties, and `vertexai`
shares the Google (gemini) whitelist. -/

theorem whitelist_gate_C1 (req : Request) (env : Env) (key provider : String)
    (hcred : extractCredential req.headers = some key)
    (hprov : (pathSegments req.url.pathname).headD "" = provider)
    (hlen : 2 ≤ (pathSegments req.url.pathname).length)
    (hcfg : (getApiConfig provider).isSome = true) :
    (getAllowedKeysForProvider provider env ≠ [] →
      (getAllowedKeysForProvider provider env).contains key = false →
      dispatch req env = RouteResult.response unauthorizedResponse) ∧
    (getAllowedKeysForProvider provider env = [] →
      (dispatch req env).forwardsTo provider = true) ∧
    (∀ e : Env, getAllowedKeysForProvider "vertexai" e = getAllowedKeysForProvider "gemini" e) ∧
    (∀ s : String, splitKeys s = ((jsSplit s ',').map jsTrim).filter (fun k => decide (k ≠ ""))) := by
  obtain ⟨cfg, hc⟩ := Option.isSome_iff_exists.mp hcfg
  have hlt : ¬ ((pathSegments req.url.pathname).length < 2) := by omega
  have hprov' : (pathSegments req.url.pathname).head?.getD "" = provider := by
    rw [← List.headD_eq_head?_getD]
    exact hprov
  refine ⟨?_, ?_, ?_, ?_⟩
  · intro hne hcont
    have hlenpos : 0 < (getAllowedKeysForProvider provider env).length := List.length_pos.mpr hne
    have hnotmem : key ∉ getAllowedKeysForProvider provider env := by simpa using hcont
    simp [dispatch, hcred, if_neg hlt, hprov', hc, hlenpos, hnotmem]
  · intro hempty
    simp [dispatch, hcred, if_neg hlt, hprov', hc, hempty, RouteResult.forwardsTo]
  · intro e
    rfl
  · intro s
    by_cases hs : s = ""
    · subst hs
      decide
    · simp only [splitKeys, if_neg hs]
      refine List.filter_congr ?_
      intro k _
      rw [decide_eq_decide]
      exact strLength_pos_iff k

/-- Witness for C1: with whitelist `"k1, k2"` the credential `bad` is
rejected 403 on `/anthropic/...`; with the empty gemini whitelist any
credential is forwarded on `/gemini/...`. -/

theorem whitelist_gate_C1_witness :
    dispatch c1ReqBad c1Env = RouteResult.response unauthorizedResponse ∧
    (dispatch c1ReqOk c1Env).forwardsTo "gemini" = true := by
  constructor
  · exact (whitelist_gate_C1 c1ReqBad c1Env "bad" "anthropic"
      (by decide) (by decide) (by decide) (by decide)).1 (by decide) (by decide)
  · exact (whitelist_gate_C1 c1ReqOk c1Env "any-key-at-all" "gemini"
      (by decide) (by decide) (by decide) (by decide)).2.1 (by decide)

/-! ### Claim C2: target URL construction -/

/-- Claim C2 says the outbound target URL is the inbound URL with scheme
and host replaced *by the provider's base origin exactly* and the path
remapped by dropping the first segment and *keeping the rest verbatim*
(openrouter excepted).  Both parts fail on the code.  At the authenticated
request `https://proxy.example.com:8080/vertexai/v1/chat/completions`: the
code replaces only `hostname` and `protocol`, so the inbound port 8080
survives and the outbound URL is *not* the base origin
`https://us-central1-aiplatform.googleapis.com` (whose port is empty); and
the `vertexai` request transform rewrites the remaining path
`/v1/chat/completions` into a Vertex AI predict path (whose project
segment is even spliced from the word `completions`), so the rest is not
kept verbatim.  The repository's own vertexai tests assert exactly this
rewritten URL. -/

theorem target_url_C2_counterexample :
    dispatch c2Req emptyEnv = RouteResult.forward c2Out "vertexai" ∧
    c2Out.url.port = "8080" ∧
    parseOrigin "https://us-central1-aiplatform.googleapis.com" =
      ("https", "us-central1-aiplatform.googleapis.com") ∧
    c2Out.url.port ≠ "" ∧
    c2Out.url.pathname ≠ "/v1/chat/completions" := by
  refine ⟨by decide, by decide, by decide, by decide, by decide⟩

/-- Claim C2 as amended: for every request the dispatcher forwards, the
outbound URL takes exactly the scheme and hostname of the provider's base
origin while the inbound port and query string are preserved unchanged
(so with an explicit non-default inbound port the target is the provider's
host on that port, not the base origin exactly); the path is rebuilt from
the non-empty inbound segments with the first (provider) segment dropped —
for openrouter the first two are dropped and the rest spliced under
`/api/v1/` — and for the one provider with a request transform (vertexai)
that path is further rewritten by `vertexTransformPath`. -/

theorem target_url_C2_amended (req : Request) (env : Env) (out : OutboundRequest)
    (provider : String) (cfg : ApiConfig)
    (hfwd : dispatch req env = RouteResult.forward out provider)
    (hcfg : getApiConfig provider = some cfg) :
    out.url.protocol = (parseOrigin cfg.baseUrl).1 ∧
    out.url.hostname = (parseOrigin cfg.baseUrl).2 ∧
    out.url.port = req.url.port ∧
    out.url.search = req.url.search ∧
    out.method = req.method ∧
    out.url.pathname =
      (if cfg.hasTransformRequest = true then
        vertexTransformPath
          (if provider = "openrouter" then
            "/api/v1/" ++ joinWith "/" ((pathSegments req.url.pathname).drop 2)
           else "/" ++ joinWith "/" ((pathSegments req.url.pathname).drop 1))
       else
        (if provider = "openrouter" then
          "/api/v1/" ++ joinWith "/" ((pathSegments req.url.pathname).drop 2)
         else "/" ++ joinWith "/" ((pathSegments req.url.pathname).drop 1))) := by
  simp only [dispatch] at hfwd
  split at hfwd
  · exact absurd hfwd (by simp)
  · split at hfwd
    · exact absurd hfwd (by simp)
    · split at hfwd
      · exact absurd hfwd (by simp)
      · split at hfwd
        · exact absurd hfwd (by simp)
        · rename_i key hcred hlen apiConfig hcfg2 hwl
          injection hfwd with h1 h2
          subst h2
          rw [hcfg] at hcfg2
          injection hcfg2 with h3
          subst h3
          subst h1
          by_cases htr : cfg.hasTransformRequest = true
          · simp [buildTargetUrl, htr]
          · simp [buildTargetUrl, htr]

/-! ### Claim C7: CORS headers on responses -/

theorem hget_hset_self_ci (h : HeaderMap) (n v n' : String) (e : strLower n = strLower n') :
    hget (hset h n v) n' = some v := by
  unfold hset hget
  rw [List.find?_append]
  have hpred : (fun p : String × String => strLower p.1 == strLower n') =
      (fun p : String × String => strLower p.1 == strLower n) := by
    funext p
    rw [e]
  rw [hpred, find?_hdelete_self]
  simp [List.find?, e]

theorem translator_ok_cors (req : Request) (env : Env) (up : Except String GeminiUpstream)
    (randSuffix : String) (resp : Response)
    (h : handleClaudeGeminiTranslation req env up randSuffix = Except.ok resp) :
    hget resp.headers "access-control-allow-origin" = some "*" := by
  simp only [handleClaudeGeminiTranslation] at h
  cases hcred : extractCredential req.headers with
  | none =>
    simp only [hcred] at h
    injection h with h1
    subst h1
    decide
  | some key =>
    simp only [hcred] at h
    by_cases hwl : ((getAllowedKeysForProvider "gemini" env).length > 0 &&
        !((getAllowedKeysForProvider "gemini" env).contains key)) = true
    · rw [if_pos hwl] at h
      injection h with h1
      subst h1
      decide
    · rw [if_neg hwl] at h
      cases hb : req.jsonBody with
      | error e =>
        simp only [hb] at h
        exact Except.noConfusion h
      | ok body =>
        simp only [hb] at h
        cases up with
        | error e => exact Except.noConfusion h
        | ok gup =>
          injection h with h1
          subst h1
          show hget jsonCorsHeaders "access-control-allow-origin" = some "*"
          decide

theorem dispatch_response_cors (req : Request) (env : Env) (resp : Response)
    (h : dispatch req env = RouteResult.response resp) :
    hget resp.headers "access-control-allow-origin" = some "*" := by
  simp only [dispatch] at h
  split at h
  · injection h with h1
    subst h1
    decide
  · split at h
    · injection h with h1
      subst h1
      decide
    · split at h
      · injection h with h1
        subst h1
        show hget jsonCorsHeaders "access-control-allow-origin" = some "*"
        decide
      · split at h
        · injection h with h1
          subst h1
          decide
        · exact RouteResult.noConfusion h

theorem assemble_cors (upstream : Response) :
    hget (assembleForwardResponse upstream).headers "access-control-allow-origin" = some "*" ∧
    hget (assembleForwardResponse upstream).headers "access-control-allow-methods" =
      some "GET, POST, PUT, DELETE, OPTIONS" ∧
    hget (assembleForwardResponse upstream).headers "access-control-allow-headers" =
      some "Content-Type, Authorization, X-API-Key, anthropic-version, openai-version, x-goog-api-key" := by
  refine ⟨?_, ?_, ?_⟩
  all_goals simp only [assembleForwardResponse]
  · rw [hget_hset_ne
        (hset (hset upstream.headers "Access-Control-Allow-Origin" "*")
          "Access-Control-Allow-Methods" "GET, POST, PUT, DELETE, OPTIONS")
        "Access-Control-Allow-Headers"
        "Content-Type, Authorization, X-API-Key, anthropic-version, openai-version, x-goog-api-key"
        "access-control-allow-origin" (by decide),
      hget_hset_ne (hset upstream.headers "Access-Control-Allow-Origin" "*")
        "Access-Control-Allow-Methods" "GET, POST, PUT, DELETE, OPTIONS"
        "access-control-allow-origin" (by decide),
      hget_hset_self_ci upstream.headers "Access-Control-Allow-Origin" "*"
        "access-control-allow-origin" (by decide)]
  · rw [hget_hset_ne
        (hset (hset upstream.headers "Access-Control-Allow-Origin" "*")
          "Access-Control-Allow-Methods" "GET, POST, PUT, DELETE, OPTIONS")
        "Access-Control-Allow-Headers"
        "Content-Type, Authorization, X-API-Key, anthropic-version, openai-version, x-goog-api-key"
        "access-control-allow-methods" (by decide),
      hget_hset_self_ci (hset upstream.headers "Access-Control-Allow-Origin" "*")
        "Access-Control-Allow-Methods" "GET, POST, PUT, DELETE, OPTIONS"
        "access-control-allow-methods" (by decide)]
  · rw [hget_hset_self_ci
        (hset (hset upstream.headers "Access-Control-Allow-Origin" "*")
          "Access-Control-Allow-Methods" "GET, POST, PUT, DELETE, OPTIONS")
        "Access-Control-Allow-Headers"
        "Content-Type, Authorization, X-API-Key, anthropic-version, openai-version, x-goog-api-key"
        "access-control-allow-headers" (by decide)]

/-- Claim C7 says *every* response of the entry point carries all three
CORS headers.  The proxy-generated error responses and the translator
replies only set `Access-Control-Allow-Origin` (plus `Content-Type`): at a
credential-less request the answer is the 401 body whose header map has no
`Access-Control-Allow-Methods` and no `Access-Control-Allow-Headers`
entry, refuting the claim. -/

theorem cors_C7_counterexample :
    fetchModel c7NoKeyReq emptyEnv (Except.error "x") (Except.error "y") "r" = missingKeyResponse ∧
    hget missingKeyResponse.headers "Access-Control-Allow-Methods" = none ∧
    hget missingKeyResponse.headers "Access-Control-Allow-Headers" = none ∧
    hget missingKeyResponse.headers "Access-Control-Allow-Origin" = some "*" := by
  refine ⟨by decide, by decide, by decide, by decide⟩

/-- Claim C7 as amended: every response of the entry point carries
`Access-Control-Allow-Origin: *`; the preflight response carries the full
CORS set including `Access-Control-Max-Age: 86400`; forwarded upstream
responses carry all three CORS headers; but proxy-generated error
responses and translator replies carry only the origin wildcard. -/

theorem cors_C7_amended (req : Request) (env : Env) (u : Except String Response)
    (g : Except String GeminiUpstream) (r : String) :
    hget (fetchModel req env u g r).headers "access-control-allow-origin" = some "*" ∧
    (req.method = "OPTIONS" → fetchModel req env u g r = preflightResponse) ∧
    hget preflightResponse.headers "access-control-allow-methods" =
      some "GET, POST, PUT, DELETE, OPTIONS" ∧
    hget preflightResponse.headers "access-control-allow-headers" =
      some "Content-Type, Authorization, X-API-Key, anthropic-version, openai-version, x-goog-api-key" ∧
    hget preflightResponse.headers "access-control-max-age" = some "86400" ∧
    (∀ (out : OutboundRequest) (provider : String) (upstream : Response),
      req.method ≠ "OPTIONS" →
      jsStartsWith req.url.pathname "/claude-gemini/v1/messages" = false →
      dispatch req env = RouteResult.forward out provider →
      u = Except.ok upstream →
      hget (fetchModel req env u g r).headers "access-control-allow-methods" =
        some "GET, POST, PUT, DELETE, OPTIONS" ∧
      hget (fetchModel req env u g r).headers "access-control-allow-headers" =
        some "Content-Type, Authorization, X-API-Key, anthropic-version, openai-version, x-goog-api-key") := by
  refine ⟨?_, ?_, by decide, by decide, by decide, ?_⟩
  · by_cases hopt : req.method = "OPTIONS"
    · simp only [fetchModel, if_pos hopt]
      decide
    · by_cases htr : jsStartsWith req.url.pathname "/claude-gemini/v1/messages" = true
      · simp only [fetchModel, if_neg hopt, htr, if_true]
        cases hh : handleClaudeGeminiTranslation req env g r with
        | ok resp => exact translator_ok_cors _ _ _ _ _ hh
        | error msg =>
          show hget jsonCorsHeaders "access-control-allow-origin" = some "*"
          decide
      · have htr' : jsStartsWith req.url.pathname "/claude-gemini/v1/messages" = false :=
          Bool.not_eq_true _ ▸ Bool.of_not_eq_true htr
        simp only [fetchModel, if_neg hopt, htr', Bool.false_eq_true, if_false]
        cases hd : dispatch req env with
        | response resp => exact dispatch_response_cors _ _ _ hd
        | forward out provider =>
          cases u with
          | ok upstream => exact (assemble_cors upstream).1
          | error msg =>
            show hget jsonCorsHeaders "access-control-allow-origin" = some "*"
            decide
  · intro hopt
    simp only [fetchModel, if_pos hopt]
  · intro out provider upstream hm ht hfwd hu
    subst hu
    simp only [fetchModel, if_neg hm, ht, Bool.false_eq_true, if_false, hfwd]
    exact ⟨(assemble_cors upstream).2.1, (assemble_cors upstream).2.2⟩

/-- Witness for the amended C7 theorem at a concrete preflight request and
at a concrete forwarded request. -/

theorem cors_C7_amended_witness :
    fetchModel c7OptionsReq emptyEnv (Except.error "x") (Except.error "y") "r" =
      preflightResponse ∧
    hget (fetchModel c7FwdReq emptyEnv (Except.ok c7Upstream) (Except.error "y") "r").headers
      "access-control-allow-methods" = some "GET, POST, PUT, DELETE, OPTIONS" ∧
    hget (fetchModel c7FwdReq emptyEnv (Except.ok c7Upstream) (Except.error "y") "r").headers
      "access-control-allow-origin" = some "*" := by
  refine ⟨?_, ?_, ?_⟩
  · exact (cors_C7_amended c7OptionsReq emptyEnv (Except.error "x") (Except.error "y") "r").2.1 rfl
  · exact ((cors_C7_amended c7FwdReq emptyEnv (Except.ok c7Upstream) (Except.error "y") "r").2.2.2.2.2
      c7FwdOut "anthropic" c7Upstream (by decide) (by decide) (by decide) rfl).1
  · exact (cors_C7_amended c7FwdReq emptyEnv (Except.ok c7Upstream) (Except.error "y") "r").1

/-! ### Header-pipeline lemmas for claims C8 and C9 -/

theorem hget_copyHeaderStep_ne (src acc : HeaderMap) (name n : String)
    (hne : strLower name ≠ strLower n) :
    hget (copyHeaderStep src acc name) n = hget acc n := by
  unfold copyHeaderStep
  cases hget src name with
  | none => rfl
  | some v =>
    simp only []
    by_cases hv : v = ""
    · rw [if_pos hv]
    · rw [if_neg hv, hget_hset_ne acc name v n hne]

theorem hget_copyHeaderStep_self (src acc : HeaderMap) (name : String) :
    hget (copyHeaderStep src acc name) name =
      (match hget src name with
       | some v => if v = "" then hget acc name else some v
       | none => hget acc name) := by
  unfold copyHeaderStep
  cases hget src name with
  | none => rfl
  | some v =>
    simp only []
    by_cases hv : v = ""
    · rw [if_pos hv, if_pos hv]
    · rw [if_neg hv, if_neg hv, hget_hset_self]

theorem hget_copyList_ne (src : HeaderMap) (L : List String) (acc : HeaderMap) (n : String)
    (hne : ∀ m ∈ L, strLower m ≠ strLower n) :
    hget (L.foldl (copyHeaderStep src) acc) n = hget acc n := by
  induction L generalizing acc with
  | nil => rfl
  | cons m ms ih =>
    rw [List.foldl_cons,
      ih (copyHeaderStep src acc m) (fun x hx => hne x (List.mem_cons_of_mem _ hx))]
    exact hget_copyHeaderStep_ne src acc m n (hne m (List.mem_cons_self _ _))

theorem hget_copyRelevant_ne (src acc : HeaderMap) (n : String)
    (hne : ∀ m ∈ RELEVANT_HEADERS, strLower m ≠ strLower n) :
    hget (copyRelevant src acc) n = hget acc n :=
  hget_copyList_ne src RELEVANT_HEADERS acc n hne

theorem hget_copyRelevant_anthropic (src acc : HeaderMap) :
    hget (copyRelevant src acc) "anthropic-version" =
      (match hget src "anthropic-version" with
       | some v => if v = "" then hget acc "anthropic-version" else some v
       | none => hget acc "anthropic-version") := by
  unfold copyRelevant RELEVANT_HEADERS
  simp only [List.foldl_cons, List.foldl_nil]
  rw [hget_copyHeaderStep_ne src _ "x-goog-user-project" "anthropic-version" (by decide),
    hget_copyHeaderStep_ne src _ "user-agent" "anthropic-version" (by decide),
    hget_copyHeaderStep_ne src _ "openai-beta" "anthropic-version" (by decide),
    hget_copyHeaderStep_ne src _ "openai-organization" "anthropic-version" (by decide),
    hget_copyHeaderStep_ne src _ "openai-version" "anthropic-version" (by decide),
    hget_copyHeaderStep_ne src _ "anthropic-beta" "anthropic-version" (by decide),
    hget_copyHeaderStep_self]
  cases hget src "anthropic-version" with
  | none => exact hget_copyHeaderStep_ne src acc "content-type" "anthropic-version" (by decide)
  | some v =>
    simp only []
    by_cases hv : v = ""
    · rw [if_pos hv, if_pos hv]
      exact hget_copyHeaderStep_ne src acc "content-type" "anthropic-version" (by decide)
    · rw [if_neg hv, if_neg hv]

theorem hget_copyRelevant_openai (src acc : HeaderMap) :
    hget (copyRelevant src acc) "openai-version" =
      (match hget src "openai-version" with
       | some v => if v = "" then hget acc "openai-version" else some v
       | none => hget acc "openai-version") := by
  unfold copyRelevant RELEVANT_HEADERS
  simp only [List.foldl_cons, List.foldl_nil]
  rw [hget_copyHeaderStep_ne src _ "x-goog-user-project" "openai-version" (by decide),
    hget_copyHeaderStep_ne src _ "user-agent" "openai-version" (by decide),
    hget_copyHeaderStep_ne src _ "openai-beta" "openai-version" (by decide),
    hget_copyHeaderStep_ne src _ "openai-organization" "openai-version" (by decide),
    hget_copyHeaderStep_self]
  cases hget src "openai-version" with
  | none =>
    rw [hget_copyHeaderStep_ne src _ "anthropic-beta" "openai-version" (by decide),
      hget_copyHeaderStep_ne src _ "anthropic-version" "openai-version" (by decide)]
    exact hget_copyHeaderStep_ne src acc "content-type" "openai-version" (by decide)
  | some v =>
    simp only []
    by_cases hv : v = ""
    · rw [if_pos hv, if_pos hv,
        hget_copyHeaderStep_ne src _ "anthropic-beta" "openai-version" (by decide),
        hget_copyHeaderStep_ne src _ "anthropic-version" "openai-version" (by decide)]
      exact hget_copyHeaderStep_ne src acc "content-type" "openai-version" (by decide)
    · rw [if_neg hv, if_neg hv]

theorem hget_maskFold_ne (L : List String) (h : HeaderMap) (n : String)
    (hne : ∀ m ∈ L, strLower m ≠ strLower n) :
    hget (L.foldl hdelete h) n = hget h n := by
  induction L generalizing h with
  | nil => rfl
  | cons m ms ih =>
    rw [List.foldl_cons, ih (hdelete h m) (fun x hx => hne x (List.mem_cons_of_mem _ hx))]
    exact hget_hdelete_ne h m n (hne m (List.mem_cons_self _ _))

theorem hget_maskClientInfo_providerMask (h : HeaderMap) (n : String)
    (hne : ∀ m ∈ providerMask, strLower m ≠ strLower n) :
    hget (maskClientInfo h (some providerMask)) n = hget h n :=
  hget_maskFold_ne providerMask h n hne

theorem hget_userAgentStep_ne (h : HeaderMap) (n : String)
    (hne : strLower "user-agent" ≠ strLower n) :
    hget (userAgentStep h) n = hget h n := by
  unfold userAgentStep
  by_cases hu : hhas h "user-agent" = true
  · rw [if_pos hu]
  · rw [if_neg hu, hget_hset_ne h "user-agent" "Claude-Proxy/1.0" n hne]

theorem hget_versionStep_ne (cfg : ApiConfig) (provider : String) (h : HeaderMap) (n : String)
    (h1 : strLower "anthropic-version" ≠ strLower n)
    (h2 : strLower "openai-version" ≠ strLower n) :
    hget (versionStep cfg provider h) n = hget h n := by
  unfold versionStep
  cases cfg.defaultVersion with
  | none => rfl
  | some dv =>
    simp only []
    by_cases hc : (!(hhas h "anthropic-version") && !(hhas h "openai-version")) = true
    · rw [if_pos hc]
      by_cases hp : provider = "anthropic"
      · rw [if_pos hp, hget_hset_ne _ _ _ _ h1]
      · rw [if_neg hp]
        by_cases hq : provider = "openai"
        · rw [if_pos hq, hget_hset_ne _ _ _ _ h2]
        · rw [if_neg hq]
    · rw [if_neg hc]

theorem hget_versionStep_keepA (cfg : ApiConfig) (provider : String) (h : HeaderMap)
    (hhasA : hhas h "anthropic-version" = true) :
    hget (versionStep cfg provider h) "anthropic-version" = hget h "anthropic-version" := by
  unfold versionStep
  cases cfg.defaultVersion with
  | none => rfl
  | some dv =>
    simp only []
    have hc : ¬ ((!(hhas h "anthropic-version") && !(hhas h "openai-version")) = true) := by
      rw [hhasA]
      simp
    rw [if_neg hc]

theorem hget_versionStep_keepO (cfg : ApiConfig) (provider : String) (h : HeaderMap)
    (hhasO : hhas h "openai-version" = true) :
    hget (versionStep cfg provider h) "openai-version" = hget h "openai-version" := by
  unfold versionStep
  cases cfg.defaultVersion with
  | none => rfl
  | some dv =>
    simp only []
    have hc : ¬ ((!(hhas h "anthropic-version") && !(hhas h "openai-version")) = true) := by
      rw [hhasO]
      simp
    rw [if_neg hc]

theorem versionStep_noop_of_present (cfg : ApiConfig) (provider : String) (h : HeaderMap)
    (hc : (!(hhas h "anthropic-version") && !(hhas h "openai-version")) = false) :
    versionStep cfg provider h = h := by
  unfold versionStep
  cases cfg.defaultVersion with
  | none => rfl
  | some dv =>
    simp only []
    have hc' : ¬ ((!(hhas h "anthropic-version") && !(hhas h "openai-version")) = true) := by
      rw [hc]
      simp
    rw [if_neg hc']

theorem versionStep_other (cfg : ApiConfig) (provider : String) (h : HeaderMap)
    (hp1 : provider ≠ "anthropic") (hp2 : provider ≠ "openai") :
    versionStep cfg provider h = h := by
  unfold versionStep
  cases cfg.defaultVersion with
  | none => rfl
  | some dv =>
    simp only []
    by_cases hc : (!(hhas h "anthropic-version") && !(hhas h "openai-version")) = true
    · rw [if_pos hc, if_neg hp1, if_neg hp2]
    · rw [if_neg hc]

theorem hget_versionStep_setA (cfg : ApiConfig) (h : HeaderMap) (dv : String)
    (hdv : cfg.defaultVersion = some dv)
    (hA : hhas h "anthropic-version" = false) (hO : hhas h "openai-version" = false) :
    hget (versionStep cfg "anthropic" h) "anthropic-version" = some dv := by
  unfold versionStep
  rw [hdv]
  simp only []
  have hc : (!(hhas h "anthropic-version") && !(hhas h "openai-version")) = true := by
    rw [hA, hO]
    rfl
  rw [if_pos hc, if_true, hget_hset_self]

theorem hget_versionStep_setO (cfg : ApiConfig) (h : HeaderMap) (dv : String)
    (hdv : cfg.defaultVersion = some dv)
    (hA : hhas h "anthropic-version" = false) (hO : hhas h "openai-version" = false) :
    hget (versionStep cfg "openai" h) "openai-version" = some dv := by
  unfold versionStep
  rw [hdv]
  simp only []
  have hc : (!(hhas h "anthropic-version") && !(hhas h "openai-version")) = true := by
    rw [hA, hO]
    rfl
  rw [if_pos hc, if_true, if_neg (by decide), hget_hset_self]

theorem hget_credHeader_ne (cfg : ApiConfig) (key n : String)
    (hne : strLower cfg.apiKeyHeader ≠ strLower n) :
    hget (credHeader cfg key) n = none := by
  unfold credHeader
  by_cases hA : cfg.apiKeyHeader = "Authorization"
  · rw [if_pos hA, hget_hset_ne [] "Authorization" _ n (hA ▸ hne)]
    rfl
  · rw [if_neg hA, hget_hset_ne [] cfg.apiKeyHeader key n hne]
    rfl

theorem getApiConfig_shape (provider : String) (cfg : ApiConfig)
    (hcfg : getApiConfig provider = some cfg) :
    cfg.maskHeaders = some providerMask ∧
    strLower cfg.apiKeyHeader ≠ strLower "anthropic-version" ∧
    strLower cfg.apiKeyHeader ≠ strLower "openai-version" ∧
    strLower cfg.apiKeyHeader ≠ strLower "user-agent" ∧
    (∀ m ∈ RELEVANT_HEADERS, strLower m ≠ strLower cfg.apiKeyHeader) ∧
    (∀ m ∈ providerMask, strLower m ≠ strLower cfg.apiKeyHeader) := by
  unfold getApiConfig at hcfg
  split at hcfg
  · injection hcfg with h1
    subst h1
    exact ⟨rfl, by decide, by decide, by decide, by decide, by decide⟩
  · split at hcfg
    · injection hcfg with h1
      subst h1
      exact ⟨rfl, by decide, by decide, by decide, by decide, by decide⟩
    · split at hcfg
      · injection hcfg with h1
        subst h1
        exact ⟨rfl, by decide, by decide, by decide, by decide, by decide⟩
      · split at hcfg
        · injection hcfg with h1
          subst h1
          exact ⟨rfl, by decide, by decide, by decide, by decide, by decide⟩
        · split at hcfg
          · injection hcfg with h1
            subst h1
            exact ⟨rfl, by decide, by decide, by decide, by decide, by decide⟩
          · split at hcfg
            · injection hcfg with h1
              subst h1
              exact ⟨rfl, by decide, by decide, by decide, by decide, by decide⟩
            · exact Option.noConfusion hcfg

/-! ### Claim C8: default version headers -/

/-- Claim C8: the default version header is written exactly when the
provider defines a default version and the constructed header set carries
neither `anthropic-version` nor `openai-version` — and only the
`anthropic` and `openai` providers ever write one (`anthropic-version`
resp. `openai-version`); a caller-supplied version header always wins.  A
header is *carried* when present with a non-empty value (a caller-supplied
empty value is falsy at the copy step and is dropped there, like every
other falsy header). -/

theorem version_default_C8 (reqHeaders : HeaderMap) (provider key : String) (cfg : ApiConfig)
    (hcfg : getApiConfig provider = some cfg) :
    (∀ v, hget reqHeaders "anthropic-version" = some v → v ≠ "" →
      hget (buildForwardHeaders reqHeaders cfg provider key) "anthropic-version" = some v) ∧
    (∀ v, hget reqHeaders "openai-version" = some v → v ≠ "" →
      hget (buildForwardHeaders reqHeaders cfg provider key) "openai-version" = some v) ∧
    (provider = "anthropic" → hcarries reqHeaders "anthropic-version" = false →
      hcarries reqHeaders "openai-version" = false →
      hget (buildForwardHeaders reqHeaders cfg provider key) "anthropic-version" =
        some "2023-06-01") ∧
    (provider = "openai" → hcarries reqHeaders "anthropic-version" = false →
      hcarries reqHeaders "openai-version" = false →
      hget (buildForwardHeaders reqHeaders cfg provider key) "openai-version" =
        some "2024-01-01") ∧
    (hcarries reqHeaders "anthropic-version" = false →
      hcarries reqHeaders "openai-version" = true →
      hget (buildForwardHeaders reqHeaders cfg provider key) "anthropic-version" = none) ∧
    (hcarries reqHeaders "openai-version" = false →
      hcarries reqHeaders "anthropic-version" = true →
      hget (buildForwardHeaders reqHeaders cfg provider key) "openai-version" = none) ∧
    (provider ≠ "anthropic" → provider ≠ "openai" →
      hcarries reqHeaders "anthropic-version" = false →
      hget (buildForwardHeaders reqHeaders cfg provider key) "anthropic-version" = none) ∧
    (provider ≠ "anthropic" → provider ≠ "openai" →
      hcarries reqHeaders "openai-version" = false →
      hget (buildForwardHeaders reqHeaders cfg provider key) "openai-version" = none) := by
  obtain ⟨hmask, hak1, hak2, hak3, hrel, hmaskak⟩ := getApiConfig_shape provider cfg hcfg
  have hbA : hget (buildForwardHeaders reqHeaders cfg provider key) "anthropic-version" =
      hget (versionStep cfg provider (copyRelevant reqHeaders (credHeader cfg key)))
        "anthropic-version" := by
    unfold buildForwardHeaders
    rw [hmask, hget_maskClientInfo_providerMask _ _ (by decide),
      hget_userAgentStep_ne _ _ (by decide)]
  have hbO : hget (buildForwardHeaders reqHeaders cfg provider key) "openai-version" =
      hget (versionStep cfg provider (copyRelevant reqHeaders (credHeader cfg key)))
        "openai-version" := by
    unfold buildForwardHeaders
    rw [hmask, hget_maskClientInfo_providerMask _ _ (by decide),
      hget_userAgentStep_ne _ _ (by decide)]
  have habsentA : hcarries reqHeaders "anthropic-version" = false →
      hget (copyRelevant reqHeaders (credHeader cfg key)) "anthropic-version" = none := by
    intro hcA
    rw [hget_copyRelevant_anthropic]
    unfold hcarries at hcA
    cases hs : hget reqHeaders "anthropic-version" with
    | none =>
      simp only []
      exact hget_credHeader_ne _ key _ hak1
    | some v =>
      rw [hs] at hcA
      simp only [] at hcA ⊢
      have hv : v = "" := by simpa using hcA
      rw [if_pos hv]
      exact hget_credHeader_ne _ key _ hak1
  have habsentO : hcarries reqHeaders "openai-version" = false →
      hget (copyRelevant reqHeaders (credHeader cfg key)) "openai-version" = none := by
    intro hcO
    rw [hget_copyRelevant_openai]
    unfold hcarries at hcO
    cases hs : hget reqHeaders "openai-version" with
    | none =>
      simp only []
      exact hget_credHeader_ne _ key _ hak2
    | some v =>
      rw [hs] at hcO
      simp only [] at hcO ⊢
      have hv : v = "" := by simpa using hcO
      rw [if_pos hv]
      exact hget_credHeader_ne _ key _ hak2
  have hpresentA : hcarries reqHeaders "anthropic-version" = true →
      hhas (copyRelevant reqHeaders (credHeader cfg key)) "anthropic-version" = true := by
    intro hcA
    unfold hcarries at hcA
    unfold hhas
    rw [hget_copyRelevant_anthropic]
    cases hs : hget reqHeaders "anthropic-version" with
    | none =>
      rw [hs] at hcA
      exact absurd hcA (by decide)
    | some v =>
      rw [hs] at hcA
      simp only [] at hcA
      have hv : v ≠ "" := by simpa using hcA
      simp only []
      rw [if_neg hv]
      rfl
  have hpresentO : hcarries reqHeaders "openai-version" = true →
      hhas (copyRelevant reqHeaders (credHeader cfg key)) "openai-version" = true := by
    intro hcO
    unfold hcarries at hcO
    unfold hhas
    rw [hget_copyRelevant_openai]
    cases hs : hget reqHeaders "openai-version" with
    | none =>
      rw [hs] at hcO
      exact absurd hcO (by decide)
    | some v =>
      rw [hs] at hcO
      simp only [] at hcO
      have hv : v ≠ "" := by simpa using hcO
      simp only []
      rw [if_neg hv]
      rfl
  refine ⟨?_, ?_, ?_, ?_, ?_, ?_, ?_, ?_⟩
  · intro v hv hvne
    have h2A : hget (copyRelevant reqHeaders (credHeader cfg key)) "anthropic-version" = some v := by
      rw [hget_copyRelevant_anthropic, hv]
      simp only []
      rw [if_neg hvne]
    have hhasA : hhas (copyRelevant reqHeaders (credHeader cfg key)) "anthropic-version" = true := by
      unfold hhas
      rw [h2A]
      rfl
    rw [hbA, hget_versionStep_keepA cfg provider _ hhasA, h2A]
  · intro v hv hvne
    have h2O : hget (copyRelevant reqHeaders (credHeader cfg key)) "openai-version" = some v := by
      rw [hget_copyRelevant_openai, hv]
      simp only []
      rw [if_neg hvne]
    have hhasO : hhas (copyRelevant reqHeaders (credHeader cfg key)) "openai-version" = true := by
      unfold hhas
      rw [h2O]
      rfl
    rw [hbO, hget_versionStep_keepO cfg provider _ hhasO, h2O]
  · intro hp hcA hcO
    subst hp
    have h0 : anthropicConfig = cfg := Option.some.inj hcfg
    subst h0
    have hhasA2 : hhas (copyRelevant reqHeaders (credHeader anthropicConfig key))
        "anthropic-version" = false := by
      unfold hhas
      rw [habsentA hcA]
      rfl
    have hhasO2 : hhas (copyRelevant reqHeaders (credHeader anthropicConfig key))
        "openai-version" = false := by
      unfold hhas
      rw [habsentO hcO]
      rfl
    rw [hbA, hget_versionStep_setA anthropicConfig _ "2023-06-01" rfl hhasA2 hhasO2]
  · intro hp hcA hcO
    subst hp
    have h0 : openaiConfig = cfg := Option.some.inj hcfg
    subst h0
    have hhasA2 : hhas (copyRelevant reqHeaders (credHeader openaiConfig key))
        "anthropic-version" = false := by
      unfold hhas
      rw [habsentA hcA]
      rfl
    have hhasO2 : hhas (copyRelevant reqHeaders (credHeader openaiConfig key))
        "openai-version" = false := by
      unfold hhas
      rw [habsentO hcO]
      rfl
    rw [hbO, hget_versionStep_setO openaiConfig _ "2024-01-01" rfl hhasA2 hhasO2]
  · intro hcA hcO
    have hhasA2 : hhas (copyRelevant reqHeaders (credHeader cfg key))
        "anthropic-version" = false := by
      unfold hhas
      rw [habsentA hcA]
      rfl
    have hnoop : versionStep cfg provider (copyRelevant reqHeaders (credHeader cfg key)) =
        copyRelevant reqHeaders (credHeader cfg key) :=
      versionStep_noop_of_present cfg provider _ (by rw [hhasA2, hpresentO hcO]; rfl)
    rw [hbA, hnoop, habsentA hcA]
  · intro hcO hcA
    have hhasO2 : hhas (copyRelevant reqHeaders (credHeader cfg key))
        "openai-version" = false := by
      unfold hhas
      rw [habsentO hcO]
      rfl
    have hnoop : versionStep cfg provider (copyRelevant reqHeaders (credHeader cfg key)) =
        copyRelevant reqHeaders (credHeader cfg key) :=
      versionStep_noop_of_present cfg provider _ (by rw [hhasO2, hpresentA hcA]; rfl)
    rw [hbO, hnoop, habsentO hcO]
  · intro hp1 hp2 hcA
    rw [hbA, versionStep_other cfg provider _ hp1 hp2, habsentA hcA]
  · intro hp1 hp2 hcO
    rw [hbO, versionStep_other cfg provider _ hp1 hp2, habsentO hcO]

/-- Witness for C8 at concrete header sets: the anthropic default is
written when no version header is carried; a caller-supplied
`anthropic-version` wins; a caller-supplied `openai-version` suppresses
the anthropic default; groq (whose descriptor also has a default version)
never receives one. -/

theorem version_default_C8_witness :
    hget (buildForwardHeaders [("content-type", "application/json")] anthropicConfig
      "anthropic" "k") "anthropic-version" = some "2023-06-01" ∧
    hget (buildForwardHeaders [("anthropic-version", "2024-11-11")] anthropicConfig
      "anthropic" "k") "anthropic-version" = some "2024-11-11" ∧
    hget (buildForwardHeaders [("openai-version", "2024-05-05")] anthropicConfig
      "anthropic" "k") "anthropic-version" = none ∧
    hget (buildForwardHeaders [] groqConfig "groq" "k") "anthropic-version" = none ∧
    hget (buildForwardHeaders [] groqConfig "groq" "k") "openai-version" = none := by
  refine ⟨?_, ?_, ?_, ?_, ?_⟩
  · exact (version_default_C8 [("content-type", "application/json")] "anthropic" "k"
      anthropicConfig (by decide)).2.2.1 rfl (by decide) (by decide)
  · exact (version_default_C8 [("anthropic-version", "2024-11-11")] "anthropic" "k"
      anthropicConfig (by decide)).1 "2024-11-11" (by decide) (by decide)
  · exact (version_default_C8 [("openai-version", "2024-05-05")] "anthropic" "k"
      anthropicConfig (by decide)).2.2.2.2.1 (by decide) (by decide)
  · exact (version_default_C8 [] "groq" "k" groqConfig (by decide)).2.2.2.2.2.2.1
      (by decide) (by decide) (by decide)
  · exact (version_default_C8 [] "groq" "k" groqConfig (by decide)).2.2.2.2.2.2.2
      (by decide) (by decide) (by decide)

/-! ### Claim C9: a non-Bearer Authorization value is the credential verbatim -/

theorem dispatch_rejects (req : Request) (env : Env) (key provider : String)
    (hcred : extractCredential req.headers = some key)
    (hprov : (pathSegments req.url.pathname).headD "" = provider)
    (hlen : 2 ≤ (pathSegments req.url.pathname).length)
    (hcfg : (getApiConfig provider).isSome = true)
    (hne : getAllowedKeysForProvider provider env ≠ [])
    (hcont : (getAllowedKeysForProvider provider env).contains key = false) :
    dispatch req env = RouteResult.response unauthorizedResponse := by
  obtain ⟨cfg, hc⟩ := Option.isSome_iff_exists.mp hcfg
  have hlt : ¬ ((pathSegments req.url.pathname).length < 2) := by omega
  have hprov' : (pathSegments req.url.pathname).head?.getD "" = provider := by
    rw [← List.headD_eq_head?_getD]
    exact hprov
  have hlenpos : 0 < (getAllowedKeysForProvider provider env).length := List.length_pos.mpr hne
  have hnotmem : key ∉ getAllowedKeysForProvider provider env := by simpa using hcont
  simp [dispatch, hcred, if_neg hlt, hprov', hc, hlenpos, hnotmem]

theorem dispatch_forward_headers (req : Request) (env : Env) (out : OutboundRequest)
    (provider key : String) (cfg : ApiConfig)
    (hcred : extractCredential req.headers = some key)
    (hfwd : dispatch req env = RouteResult.forward out provider)
    (hcfg : getApiConfig provider = some cfg) :
    out.headers = buildForwardHeaders req.headers cfg provider key := by
  simp only [dispatch, hcred] at hfwd
  by_cases hlt : (pathSegments req.url.pathname).length < 2
  · rw [if_pos hlt] at hfwd
    exact absurd hfwd (by simp)
  · rw [if_neg hlt] at hfwd
    cases hgc : getApiConfig ((pathSegments req.url.pathname).headD "") with
    | none =>
      rw [hgc] at hfwd
      exact absurd hfwd (by simp)
    | some apiConfig =>
      rw [hgc] at hfwd
      simp only [] at hfwd
      by_cases hwl : ((getAllowedKeysForProvider ((pathSegments req.url.pathname).headD "") env).length > 0 &&
          !((getAllowedKeysForProvider ((pathSegments req.url.pathname).headD "") env).contains key)) = true
      · rw [if_pos hwl] at hfwd
        exact absurd hfwd (by simp)
      · rw [if_neg hwl] at hfwd
        injection hfwd with h1 h2
        subst h2
        rw [hcfg] at hgc
        injection hgc with h3
        subst h3
        subst h1
        rfl

theorem cred_header_placed (reqHeaders : HeaderMap) (provider key : String) (cfg : ApiConfig)
    (hcfg : getApiConfig provider = some cfg) :
    hget (buildForwardHeaders reqHeaders cfg provider key) cfg.apiKeyHeader =
      some (if cfg.apiKeyHeader = "Authorization" then "Bearer " ++ key else key) := by
  obtain ⟨hmask, hak1, hak2, hak3, hrel, hmaskak⟩ := getApiConfig_shape provider cfg hcfg
  have h1 : hget (credHeader cfg key) cfg.apiKeyHeader =
      some (if cfg.apiKeyHeader = "Authorization" then "Bearer " ++ key else key) := by
    unfold credHeader
    by_cases hA : cfg.apiKeyHeader = "Authorization"
    · rw [if_pos hA, if_pos hA, hA, hget_hset_self]
    · rw [if_neg hA, if_neg hA, hget_hset_self]
  unfold buildForwardHeaders
  rw [hmask, hget_maskClientInfo_providerMask _ _ hmaskak,
    hget_userAgentStep_ne _ _ (Ne.symm hak3),
    hget_versionStep_ne cfg provider _ _ (Ne.symm hak1) (Ne.symm hak2),
    hget_copyRelevant_ne reqHeaders _ _ hrel]
  exact h1

/-- Claim C9: when a request carries no `X-API-Key` but an `Authorization`
header whose (non-empty) value does not begin with `Bearer` plus
whitespace, the regex replace leaves the value untouched, the raw value is
the caller credential, it is what the whitelist check tests (a non-empty
whitelist without it answers 403), and on a forwarded request it is what
lands in the provider's credential header (`Bearer`-prefixed only where
the provider header is `Authorization`).  The request is not rejected for
lacking the Bearer scheme.  An empty-valued header conveys no credential
(it is falsy in the source), hence the non-emptiness reading of
`carries`. -/

theorem bearer_fallback_C9 (req : Request) (env : Env) (a : String)
    (hx : hget req.headers "X-API-Key" = none)
    (ha : hget req.headers "Authorization" = some a)
    (hb : bearerMatch a = false)
    (hane : a ≠ "") :
    stripBearer a = a ∧
    extractCredential req.headers = some a ∧
    (∀ (out : OutboundRequest) (provider : String) (cfg : ApiConfig),
      dispatch req env = RouteResult.forward out provider →
      getApiConfig provider = some cfg →
      hget out.headers cfg.apiKeyHeader =
        some (if cfg.apiKeyHeader = "Authorization" then "Bearer " ++ a else a)) ∧
    (∀ provider : String,
      (pathSegments req.url.pathname).headD "" = provider →
      2 ≤ (pathSegments req.url.pathname).length →
      (getApiConfig provider).isSome = true →
      getAllowedKeysForProvider provider env ≠ [] →
      (getAllowedKeysForProvider provider env).contains a = false →
      dispatch req env = RouteResult.response unauthorizedResponse) := by
  have hstrip : stripBearer a = a := by
    unfold stripBearer
    rw [if_neg (by rw [hb]; simp)]
  have hx' : hget req.headers "x-api-key" = none :=
    (hget_congr_name req.headers
      (show strLower "X-API-Key" = strLower "x-api-key" by decide)).symm.trans hx
  have ha' : hget req.headers "authorization" = some a :=
    (hget_congr_name req.headers
      (show strLower "Authorization" = strLower "authorization" by decide)).symm.trans ha
  have hcred : extractCredential req.headers = some a := by
    simp only [extractCredential, extractAuthCredential, hx', ha', hstrip, if_neg hane]
  refine ⟨hstrip, hcred, ?_, ?_⟩
  · intro out provider cfg hfwd hcfg
    rw [dispatch_forward_headers req env out provider a cfg hcred hfwd hcfg]
    exact cred_header_placed req.headers provider a cfg hcfg
  · intro provider hprov hlen hcfg hne hcont
    exact dispatch_rejects req env a provider hcred hprov hlen hcfg hne hcont

/-- Witness for C9: `Authorization: sk-raw-token` (no Bearer scheme) is
used verbatim — placed raw into `x-goog-api-key` on the forwarded gemini
request, and rejected 403 when a non-empty gemini whitelist lacks it. -/

theorem bearer_fallback_C9_witness :
    extractCredential c9Req.headers = some "sk-raw-token" ∧
    hget c9Out.headers geminiConfig.apiKeyHeader = some "sk-raw-token" ∧
    dispatch c9Req c9WlEnv = RouteResult.response unauthorizedResponse := by
  refine ⟨?_, ?_, ?_⟩
  · exact (bearer_fallback_C9 c9Req emptyEnv "sk-raw-token"
      (by decide) (by decide) (by decide) (by decide)).2.1
  · exact (bearer_fallback_C9 c9Req emptyEnv "sk-raw-token"
      (by decide) (by decide) (by decide) (by decide)).2.2.1
      c9Out "gemini" geminiConfig (by decide) (by decide)
  · exact (bearer_fallback_C9 c9Req c9WlEnv "sk-raw-token"
      (by decide) (by decide) (by decide) (by decide)).2.2.2
      "gemini" (by decide) (by decide) (by decide) (by decide) (by decide)

/-- Witness for the amended C2 theorem at the concrete vertexai request. -/

theorem target_url_C2_amended_witness :
    c2Out.url.protocol = (parseOrigin vertexaiConfig.baseUrl).1 ∧
    c2Out.url.hostname = (parseOrigin vertexaiConfig.baseUrl).2 ∧
    c2Out.url.port = c2Req.url.port ∧
    c2Out.url.search = c2Req.url.search ∧
    c2Out.method = c2Req.method ∧
    c2Out.url.pathname =
      (if vertexaiConfig.hasTransformRequest = true then
        vertexTransformPath
          (if "vertexai" = "openrouter" then
            "/api/v1/" ++ joinWith "/" ((pathSegments c2Req.url.pathname).drop 2)
           else "/" ++ joinWith "/" ((pathSegments c2Req.url.pathname).drop 1))
       else
        (if "vertexai" = "openrouter" then
          "/api/v1/" ++ joinWith "/" ((pathSegments c2Req.url.pathname).drop 2)
         else "/" ++ joinWith "/" ((pathSegments c2Req.url.pathname).drop 1))) :=
  target_url_C2_amended c2Req emptyEnv c2Out "vertexai" vertexaiConfig (by decide) (by decide)
